import Mathlib

/-!
# Verification of the platformer simulation core

A shallow embedding, in Lean 4, of the deterministic simulation layer of the
2D platformer: the player physics (`PlayerPhysics.update` /
`Player.update`), the enemy physics (`EntityPhysics` / `EnemyPhysics`), the
collectible collision pass, and the seeded procedural level generator
(`generateLevel`, `generatePlatforms`, `generateEnemies`,
`generateCollectibles`).

Modelling conventions:
* JavaScript `number` (IEEE float64) is modelled by `ℚ` with exact
  arithmetic; the properties checked here are structural/geometric and do
  not hinge on float rounding.
* `Math.random()` (the ambient, unseeded source) is modelled by an explicit
  stream `amb : ℕ → ℚ` together with a cursor; the seeded linear
  congruential generator (`SeededRandom`) is modelled exactly on `ℕ`
  (its state stays below 2^32, where JS float64 arithmetic is exact).
* `Math.sin (Math.PI * r)` (used only for collectible arch/trail heights)
  is transcendental and is kept as an explicit function parameter `sinpi`.
* `while` loops whose step size is data-dependent take a fuel argument;
  for every input on which the source loop terminates, a large enough fuel
  reproduces the source behaviour exactly, and the invariants proved below
  hold for every fuel.
* The optional `seed` field of `LevelGenerationParams` is passed as a
  separate `Option ℕ` argument next to the (seedless) parameter record;
  the generator reads no other part of `params.seed`.
-/

set_option linter.unusedVariables false

/-- JS `Math.floor` on the rational model. -/
def jsFloor (q : ℚ) : ℤ := ⌊q⌋

/-- JS `Math.round` (rounds half toward positive infinity, like `⌊q + 1/2⌋`). -/
def jsRound (q : ℚ) : ℤ := ⌊q + 1/2⌋

/-! ## Random sources

`SeededRandom.random` from the level generator:
a linear congruential generator `seed := (1664525 * seed + 1013904223) % 2^32`
returning `seed / 2^32`.  `Math.random()` is an ambient stream.
Both are threaded through one state record `RS`, mirroring the module-level
`randomGenerator` singleton plus the platform's ambient source. -/

/-- Random state: seeded LCG state plus the ambient `Math.random` stream and
its cursor. -/
structure RS where
  seed : ℕ
  amb : ℕ → ℚ
  ai : ℕ

/-- The LCG modulus `2^32`. -/
def lcgM : ℕ := 4294967296

/-- `SeededRandom.random()`: advance the LCG and return the normalised value. -/
def seededNext (rs : RS) : ℚ × RS :=
  let s2 := (1664525 * rs.seed + 1013904223) % lcgM
  ((s2 : ℚ) / (lcgM : ℚ), { rs with seed := s2 })

/-- `randomBetween(min, max)` = `random() * (max - min) + min` (seeded). -/
def randomBetween (lo hi : ℚ) (rs : RS) : ℚ × RS :=
  let p := seededNext rs
  (p.1 * (hi - lo) + lo, p.2)

/-- One draw from the ambient `Math.random()` stream. -/
def mathRandom (rs : RS) : ℚ × RS :=
  (rs.amb rs.ai, { rs with ai := rs.ai + 1 })

/-! ## Player physics

From `PlayerPhysics` (`player-physics.ts`): `update(keys, deltaTime)` and the
collectible collision pass; `Player.update` in `player.ts` has the identical
movement/jump/gravity/integration sequence. -/

/-- The player body state (`PlayerPhysics` fields). -/
structure PlayerState where
  px : ℚ
  py : ℚ
  vx : ℚ
  vy : ℚ
  isGrounded : Bool
  width : ℚ
  height : ℚ
  speed : ℚ
  jumpForce : ℚ
  gravity : ℚ
  isMoving : Bool
  facingLeft : Bool
deriving DecidableEq, Repr

/-- `PlayerPhysics.update(keys, deltaTime)`: horizontal input (left branch
tested first), jump if grounded and a jump key held, gravity, then Euler
integration. -/
def playerUpdate (keys : String → Bool) (dt : ℚ) (s0 : PlayerState) : PlayerState :=
  let s1 := { s0 with vx := 0 }
  let s2 :=
    if keys "ArrowLeft" || keys "a" || keys "A" then
      { s1 with vx := -s1.speed, isMoving := true, facingLeft := true }
    else if keys "ArrowRight" || keys "d" || keys "D" then
      { s1 with vx := s1.speed, isMoving := true, facingLeft := false }
    else
      { s1 with isMoving := false }
  let jumpKeyPressed := keys "ArrowUp" || keys " " || keys "w" || keys "W"
  let s3 :=
    if jumpKeyPressed && s2.isGrounded then
      { s2 with vy := s2.jumpForce, isGrounded := false }
    else s2
  let s4 := { s3 with vy := s3.vy - s3.gravity * dt }
  { s4 with px := s4.px + s4.vx * dt, py := s4.py + s4.vy * dt }

/-- A collectible (`Collectible` fields relevant to simulation). -/
structure CollectibleState where
  radius : ℚ
  cx : ℚ
  cy : ℚ
  isCollected : Bool
deriving DecidableEq, Repr

/-- The `collectibles.forEach` body of `checkCollectibleCollisions`,
processing the list from index `idx` upward: skip collected items, run the
circle-vs-rectangle closest-point test, and on a hit mark the item collected
(`Collectible.collect`) and record its index. -/
def collectGo (left right top bottom : ℚ) : ℕ → List CollectibleState → List ℕ × List CollectibleState
  | _, [] => ([], [])
  | idx, c :: rest =>
    let p := collectGo left right top bottom (idx + 1) rest
    if c.isCollected then
      (p.1, c :: p.2)
    else
      let closestX := max left (min c.cx right)
      let closestY := max bottom (min c.cy top)
      let dX := c.cx - closestX
      let dY := c.cy - closestY
      if dX * dX + dY * dY < c.radius * c.radius then
        (idx :: p.1, { c with isCollected := true } :: p.2)
      else
        (p.1, c :: p.2)

/-- `PlayerPhysics.checkCollectibleCollisions(collectibles)`: returns the
indices collected this tick together with the updated collectible list
(the source mutates the array in place). -/
def checkCollectibleCollisions (s : PlayerState) (cs : List CollectibleState) :
    List ℕ × List CollectibleState :=
  collectGo (s.px - s.width / 2) (s.px + s.width / 2)
    (s.py + s.height / 2) (s.py - s.height / 2) 0 cs

/-! ## Enemy physics

From `entity-physics.ts` (`EntityPhysics`) and `enemy-physics.ts`
(`EnemyPhysics`): gravity/integration, AABB platform resolution with
minimum-penetration axis choice and velocity gating, patrol clamping and
direction flips. -/

/-- Enemy movement behaviour (`EnemyMovementType`). -/
inductive EnemyMoveType
  | stationary
  | horizontal
deriving DecidableEq, Repr

/-- The enemy body state (`EnemyPhysics` fields; `jumpForce` is always 0). -/
structure EnemyState where
  px : ℚ
  py : ℚ
  vx : ℚ
  vy : ℚ
  isGrounded : Bool
  width : ℚ
  height : ℚ
  speed : ℚ
  gravity : ℚ
  moveType : EnemyMoveType
  moveRange : ℚ
  initialX : ℚ
  direction : ℚ
  isMoving : Bool
  facingLeft : Bool
deriving DecidableEq, Repr

/-- The `EnemyPhysics` constructor state: spawn at `pos`, zero velocity,
airborne, patrol anchor `initialX = pos.x`, direction `1`. -/
def mkEnemy (width height : ℚ) (posx posy : ℚ) (speed gravity : ℚ)
    (moveType : EnemyMoveType) (moveRange : ℚ) : EnemyState :=
  { px := posx, py := posy, vx := 0, vy := 0, isGrounded := false
    width := width, height := height, speed := speed, gravity := gravity
    moveType := moveType, moveRange := moveRange, initialX := posx
    direction := 1, isMoving := false, facingLeft := false }

/-- `EnemyPhysics.updateEnemy(deltaTime)`: grounded horizontal enemies walk
at `direction * speed` and clamp-and-flip at the patrol bounds
`initialX ± moveRange/2`; airborne or stationary enemies have their
horizontal velocity zeroed.  Then the base `EntityPhysics.update` applies
gravity and integrates the position. -/
def updateEnemy (dt : ℚ) (s0 : EnemyState) : EnemyState :=
  let s1 :=
    if s0.moveType = EnemyMoveType.horizontal ∧ s0.isGrounded then
      let sa := { s0 with vx := s0.direction * s0.speed }
      let sb :=
        if sa.px > sa.initialX + sa.moveRange / 2 then
          { sa with px := sa.initialX + sa.moveRange / 2, direction := -1,
                    vx := -sa.speed, facingLeft := true }
        else if sa.px < sa.initialX - sa.moveRange / 2 then
          { sa with px := sa.initialX - sa.moveRange / 2, direction := 1,
                    vx := sa.speed, facingLeft := false }
        else sa
      { sb with isMoving := decide (sb.vx ≠ 0) }
    else
      { s0 with vx := 0, isMoving := false }
  let vy2 := s1.vy - s1.gravity * dt
  { s1 with vy := vy2, px := s1.px + s1.vx * dt, py := s1.py + vy2 * dt }

/-- A platform as seen by the collision resolver (mesh position plus plane
geometry width/height). -/
structure MeshRect where
  x : ℚ
  y : ℚ
  width : ℚ
  height : ℚ
deriving DecidableEq, Repr

/-- One iteration of the `platforms.forEach` body of
`EntityPhysics.checkPlatformCollisions`: overlap test, four penetration
depths, resolution along the minimum-penetration axis gated by velocity
direction. -/
def resolveEnemyPlatform (s : EnemyState) (p : MeshRect) : EnemyState :=
  let pL := p.x - p.width / 2
  let pR := p.x + p.width / 2
  let pT := p.y + p.height / 2
  let pB := p.y - p.height / 2
  let eL := s.px - s.width / 2
  let eR := s.px + s.width / 2
  let eT := s.py + s.height / 2
  let eB := s.py - s.height / 2
  if (eR > pL ∧ eL < pR) ∧ (eB < pT ∧ eT > pB) then
    let bottomO := pT - eB
    let topO := eT - pB
    let leftO := eR - pL
    let rightO := pR - eL
    let minO := min (min (min bottomO topO) leftO) rightO
    if minO = bottomO ∧ s.vy ≤ 0 then
      { s with py := pT + s.height / 2, vy := 0, isGrounded := true }
    else if minO = topO ∧ s.vy > 0 then
      { s with py := pB - s.height / 2, vy := 0 }
    else if minO = leftO ∧ s.vx > 0 then
      { s with px := pL - s.width / 2, vx := 0 }
    else if minO = rightO ∧ s.vx < 0 then
      { s with px := pR + s.width / 2, vx := 0 }
    else s
  else s

/-- `EnemyPhysics.checkPlatformCollisions(platforms)`: clear `isGrounded`,
run the shared resolver over the platforms in order, then flip `direction`
whenever a horizontal-type enemy ends the pass with zero horizontal
velocity (the wall-bounce override). -/
def enemyCheckPlatformCollisions (platforms : List MeshRect) (s : EnemyState) : EnemyState :=
  let s2 := platforms.foldl resolveEnemyPlatform { s with isGrounded := false }
  if s2.moveType = EnemyMoveType.horizontal ∧ s2.vx = 0 then
    let d2 := -s2.direction
    { s2 with direction := d2, facingLeft := decide (d2 < 0) }
  else s2

example :
    (playerUpdate (fun k => k == "ArrowUp") (1/60)
      { px := 0, py := -7/2, vx := 0, vy := 0, isGrounded := true,
        width := 5/4, height := 5/4, speed := 5, jumpForce := 10, gravity := 20,
        isMoving := false, facingLeft := false }).vy = 29/3 := by
  with_unfolding_all decide

/-! ## Level generator data model

From `level-generator.ts`: `LevelGenerationParams` (the optional `seed`
field is passed separately as `Option ℕ`), `DEFAULT_LEVEL_PARAMS`, and the
generated definitions.  Platform colors are compile-time constants in this
file and are dropped; enemy colors consume an ambient draw and are kept. -/

/-- `LevelGenerationParams` without the optional `seed` field. -/
structure LevelGenerationParams where
  levelWidth : ℚ
  levelMinX : ℚ
  levelMaxX : ℚ
  groundY : ℚ
  groundHeight : ℚ
  minPlatformWidth : ℚ
  maxPlatformWidth : ℚ
  minPlatformHeight : ℚ
  maxPlatformHeight : ℚ
  minY : ℚ
  maxY : ℚ
  minPlatformSpacingY : ℚ
  maxPlatformSpacingY : ℚ
  minPlatformSpacingX : ℚ
  maxPlatformSpacingX : ℚ
  playerJumpHeight : ℚ
  playerJumpDistance : ℚ
  enemyDensity : ℚ
  minEnemiesPerPlatform : ℚ
  maxEnemiesPerPlatform : ℚ
  collectibleDensity : ℚ
  minCollectiblesPerPlatform : ℚ
  maxCollectiblesPerPlatform : ℚ
  collectibleHeight : ℚ

/-- `DEFAULT_LEVEL_PARAMS`. -/
def DEFAULT_LEVEL_PARAMS : LevelGenerationParams :=
  { levelWidth := 80, levelMinX := -40, levelMaxX := 40
    groundY := -43/10, groundHeight := 1/2
    minPlatformWidth := 5/2, maxPlatformWidth := 5
    minPlatformHeight := 1/2, maxPlatformHeight := 1/2
    minY := -3, maxY := 5/2
    minPlatformSpacingY := 9/5, maxPlatformSpacingY := 5/2
    minPlatformSpacingX := 5/2, maxPlatformSpacingX := 4
    playerJumpHeight := 7/2, playerJumpDistance := 4
    enemyDensity := 2/5, minEnemiesPerPlatform := 1, maxEnemiesPerPlatform := 2
    collectibleDensity := 7/10, minCollectiblesPerPlatform := 1,
    maxCollectiblesPerPlatform := 3, collectibleHeight := 7/10 }

/-- `PlatformDefinition` (width, height, center position; the constant brown
color is dropped). -/
structure PlatformDefinition where
  width : ℚ
  height : ℚ
  x : ℚ
  y : ℚ
deriving DecidableEq, Repr

/-- `EnemyDefinition` as produced by `generateEnemies`. -/
structure EnemyDefinition where
  width : ℚ
  height : ℚ
  x : ℚ
  y : ℚ
  color : ℕ
  moveType : EnemyMoveType
  moveSpeed : ℚ
  moveRange : ℚ
  gravity : ℚ
deriving DecidableEq, Repr

/-- `CollectibleDefinition` as produced by `generateCollectibles` (constant
gold color dropped). -/
structure CollectibleDefinition where
  radius : ℚ
  x : ℚ
  y : ℚ
deriving DecidableEq, Repr

/-- `isGroundPlatform` check inside `platformOverlaps`: the existing
platform sits at the *default* ground height (the source compares against
`DEFAULT_LEVEL_PARAMS.groundY`, not `params.groundY`). -/
def isGroundPlatformD (q : PlatformDefinition) : Bool :=
  decide (|q.y - DEFAULT_LEVEL_PARAMS.groundY| < 1/10)

/-- `isFloatingPlatform` check inside `platformOverlaps` for the candidate
height, again against the default ground height. -/
def isFloatingYD (py : ℚ) : Bool :=
  decide (|py - DEFAULT_LEVEL_PARAMS.groundY| > 1/2)

/-- One loop iteration of `platformOverlaps`: the ground/floating skip, the
direct AABB overlap test, and the 1.0-unit too-close test applied only
against floating existing platforms. -/
def overlapsOne (px py pw ph : ℚ) (q : PlatformDefinition) : Bool :=
  if isGroundPlatformD q && isFloatingYD py then false
  else
    let newLeft := px - pw / 2
    let newRight := px + pw / 2
    let newTop := py + ph / 2
    let newBottom := py - ph / 2
    let existingLeft := q.x - q.width / 2
    let existingRight := q.x + q.width / 2
    let existingTop := q.y + q.height / 2
    let existingBottom := q.y - q.height / 2
    let horizontalOverlap := decide (newRight > existingLeft ∧ newLeft < existingRight)
    let verticalOverlap := decide (newTop > existingBottom ∧ newBottom < existingTop)
    let tooCloseHorizontally :=
      decide (|newRight - existingLeft| < 1 ∨ |newLeft - existingRight| < 1)
    let tooCloseVertically :=
      decide (|newTop - existingBottom| < 1 ∨ |newBottom - existingTop| < 1)
    if horizontalOverlap && verticalOverlap then true
    else if isFloatingYD py && !isGroundPlatformD q &&
        decide (q.y > DEFAULT_LEVEL_PARAMS.groundY + 1/2) then
      (horizontalOverlap && tooCloseVertically) || (verticalOverlap && tooCloseHorizontally)
    else false

/-- `platformOverlaps(platformX, platformY, platformWidth, platformHeight,
existingPlatforms)`. -/
def platformOverlaps (px py pw ph : ℚ) (existing : List PlatformDefinition) : Bool :=
  existing.any (overlapsOne px py pw ph)

/-- The reachability disjunction tested (for `i ≥ 1`) inside
`isPlatformLocationValid`: within the jump envelope, or the relaxed
edge-proximity test. -/
def reachableFromOne (px py pw : ℚ) (params : LevelGenerationParams)
    (q : PlatformDefinition) : Bool :=
  let horizontalDistance := |px - q.x|
  let verticalDistance := py - q.y
  let withinHorizontalRange := decide (horizontalDistance ≤ params.playerJumpDistance)
  let withinVerticalRange :=
    decide (verticalDistance ≤ params.playerJumpHeight ∧
      verticalDistance ≥ -params.playerJumpHeight * 2)
  let edgesClose :=
    decide (horizontalDistance < pw / 2 + q.width / 2 + params.playerJumpDistance * (1/2))
  (withinHorizontalRange && withinVerticalRange) ||
    (edgesClose && decide (|verticalDistance| < params.playerJumpHeight))

/-- `isPlatformLocationValid(platformX, platformY, platformWidth,
platformHeight, existingPlatforms, params, isFirstRow)`. -/
def isPlatformLocationValid (px py pw ph : ℚ) (existing : List PlatformDefinition)
    (params : LevelGenerationParams) (isFirstRow : Bool) : Bool :=
  if platformOverlaps px py pw ph existing then false
  else if existing.isEmpty || isFirstRow then
    match existing.head? with
    | some g =>
      if isFirstRow then
        decide (py - g.y ≤ params.playerJumpHeight * (7/10))
      else true
    | none => true
  else
    (existing.drop 1).any (reachableFromOne px py pw params)

/-! ## `generatePlatforms`

Each `while` loop of the source becomes a fuel-indexed recursive function;
the bounded `for` loops become structural recursions.  Platforms are
appended (`push`) exactly as in the source. -/

/-- The segmented-ground loop extending to the left of the spawn platform. -/
def groundLeftLoop (params : LevelGenerationParams) :
    ℕ → ℚ → List PlatformDefinition → RS → List PlatformDefinition × RS
  | 0, _, ps, rs => (ps, rs)
  | fuel + 1, currentX, ps, rs =>
    if currentX > params.levelMinX + 2 then
      let pr := mathRandom rs
      if pr.1 < 3/10 then
        let pg := randomBetween 2 3 pr.2
        groundLeftLoop params fuel (currentX - pg.1) ps pg.2
      else
        let pw := randomBetween 3 8 pr.2
        let actualWidth := min pw.1 (|currentX - params.levelMinX| - 2)
        let ps2 :=
          if actualWidth > 1 then
            ps ++ [{ width := actualWidth, height := params.groundHeight,
                     x := currentX - actualWidth / 2, y := params.groundY }]
          else ps
        groundLeftLoop params fuel (currentX - (actualWidth + 1)) ps2 pw.2
    else (ps, rs)

/-- The segmented-ground loop extending to the right of the spawn platform. -/
def groundRightLoop (params : LevelGenerationParams) :
    ℕ → ℚ → List PlatformDefinition → RS → List PlatformDefinition × RS
  | 0, _, ps, rs => (ps, rs)
  | fuel + 1, currentX, ps, rs =>
    if currentX < params.levelMaxX - 2 then
      let pr := mathRandom rs
      if pr.1 < 3/10 then
        let pg := randomBetween 2 3 pr.2
        groundRightLoop params fuel (currentX + pg.1) ps pg.2
      else
        let pw := randomBetween 3 8 pr.2
        let actualWidth := min pw.1 (|params.levelMaxX - currentX| - 2)
        let ps2 :=
          if actualWidth > 1 then
            ps ++ [{ width := actualWidth, height := params.groundHeight,
                     x := currentX + actualWidth / 2, y := params.groundY }]
          else ps
        groundRightLoop params fuel (currentX + (actualWidth + 1)) ps2 pw.2
    else (ps, rs)

/-- The first-elevated-row placement loop. -/
def firstRowLoop (params : LevelGenerationParams) (firstRowY : ℚ) (count : ℤ) :
    ℕ → ℚ → ℤ → List PlatformDefinition → RS → List PlatformDefinition × RS
  | 0, _, _, ps, rs => (ps, rs)
  | fuel + 1, x, placed, ps, rs =>
    if x < params.levelMaxX - 4 ∧ placed < count then
      let pw := randomBetween params.minPlatformWidth params.maxPlatformWidth rs
      let st :=
        if isPlatformLocationValid x firstRowY pw.1 params.minPlatformHeight ps params true then
          (ps ++ [{ width := pw.1, height := params.minPlatformHeight,
                    x := x, y := firstRowY }], placed + 1)
        else (ps, placed)
      let sp := randomBetween (params.minPlatformSpacingX + 1) (params.maxPlatformSpacingX + 2) pw.2
      firstRowLoop params firstRowY count fuel (x + pw.1 + sp.1) st.2 st.1 sp.2
    else (ps, rs)

/-- Stable insertion of a platform into a list sorted by ascending center x
(models the stable `Array.prototype.sort` with comparator `a.x - b.x`). -/
def insertByX (p : PlatformDefinition) : List PlatformDefinition → List PlatformDefinition
  | [] => [p]
  | q :: qs => if q.x ≤ p.x then q :: insertByX p qs else p :: q :: qs

/-- Stable sort of platforms by ascending center x. -/
def sortByX : List PlatformDefinition → List PlatformDefinition
  | [] => []
  | p :: rest => insertByX p (sortByX rest)

/-- The bridge-platform pass over consecutive sorted ground segments
(row 0 of the row loop). -/
def bridgeLoop (params : LevelGenerationParams) (firstRowY : ℚ) :
    List PlatformDefinition → List PlatformDefinition → RS → List PlatformDefinition × RS
  | [], ps, rs => (ps, rs)
  | [_], ps, rs => (ps, rs)
  | a :: b :: rest, ps, rs =>
    let currentRight := a.x + a.width / 2
    let nextLeft := b.x - b.width / 2
    let gapWidth := nextLeft - currentRight
    if gapWidth > 2 ∧ gapWidth < 8 then
      let bridgeX := currentRight + gapWidth / 2
      let bridgeWidth := min 3 (gapWidth * (7/10))
      let pv := randomBetween (-(1/2)) (1/2) rs
      let bY := firstRowY + pv.1
      let ps2 :=
        if isPlatformLocationValid bridgeX bY bridgeWidth params.minPlatformHeight ps params false then
          ps ++ [{ width := bridgeWidth, height := params.minPlatformHeight, x := bridgeX, y := bY }]
        else ps
      bridgeLoop params firstRowY (b :: rest) ps2 pv.2
    else
      bridgeLoop params firstRowY (b :: rest) ps rs

/-- The zig-zag row pattern: five slots alternating left/right offsets.
`i` counts up from 0; `left` is the remaining slot count. -/
def zigzagLoop (params : LevelGenerationParams) (currentHeight : ℚ) :
    ℕ → ℕ → List PlatformDefinition → RS → List PlatformDefinition × RS
  | _, 0, ps, rs => (ps, rs)
  | i, left + 1, ps, rs =>
    let isLeft := i % 2 = 0
    let segmentWidth := (params.levelMaxX - params.levelMinX) / 5
    let platformSpacing := params.levelMaxX / (5/2)
    let po := randomBetween (platformSpacing * (1/2)) platformSpacing rs
    let offsetX := if isLeft then -po.1 else po.1
    let segmentCenter := params.levelMinX + ((i : ℚ) + 1/2) * segmentWidth
    let x := segmentCenter + offsetX
    if x < params.levelMinX + 4 ∨ x > params.levelMaxX - 4 then
      zigzagLoop params currentHeight (i + 1) left ps po.2
    else
      let pw := randomBetween params.minPlatformWidth (params.maxPlatformWidth * (4/5)) po.2
      let pv := randomBetween (-(1/2)) (1/2) pw.2
      let y := currentHeight + pv.1
      let ps2 :=
        if isPlatformLocationValid x y pw.1 params.minPlatformHeight ps params false then
          ps ++ [{ width := pw.1, height := params.minPlatformHeight, x := x, y := y }]
        else ps
      zigzagLoop params currentHeight (i + 1) left ps2 pv.2

/-- The standard row pattern: bounded-attempt left-to-right placement.
The remaining attempt budget (at most 20) doubles as fuel. -/
def standardRowLoop (params : LevelGenerationParams) (currentHeight : ℚ) (target : ℤ) :
    ℕ → ℚ → ℤ → List PlatformDefinition → RS → List PlatformDefinition × RS
  | 0, _, _, ps, rs => (ps, rs)
  | att + 1, x, placed, ps, rs =>
    if x < params.levelMaxX - 4 ∧ placed < target then
      let pw := randomBetween params.minPlatformWidth params.maxPlatformWidth rs
      let pv := randomBetween (-(3/10)) (3/10) pw.2
      let y := currentHeight + pv.1
      if isPlatformLocationValid x y pw.1 params.minPlatformHeight ps params false then
        let sp := randomBetween params.minPlatformSpacingX params.maxPlatformSpacingX pv.2
        standardRowLoop params currentHeight target att (x + pw.1 + sp.1) (placed + 1)
          (ps ++ [{ width := pw.1, height := params.minPlatformHeight, x := x, y := y }]) sp.2
      else
        let sp := randomBetween 2 3 pv.2
        standardRowLoop params currentHeight target att (x + sp.1) placed ps sp.2
    else (ps, rs)

/-- The body of one row of the structured-row loop (after the break test):
bridges for row 0, then the 50/50 zig-zag/standard pattern choice (the
ambient draw happens only for rows after the first, mirroring the
short-circuit in `row > 0 && Math.random() < 0.5`). -/
def rowBody (params : LevelGenerationParams) (firstRowY : ℚ) (row : ℕ) (currentHeight : ℚ)
    (ps : List PlatformDefinition) (rs : RS) : List PlatformDefinition × RS :=
  let pb :=
    if row = 0 then
      let groundSegments :=
        sortByX (ps.filter (fun p => decide (|p.y - params.groundY| < 1/10)))
      if groundSegments.length > 1 then
        bridgeLoop params firstRowY groundSegments ps rs
      else (ps, rs)
    else (ps, rs)
  let goStandard (rs2 : RS) : List PlatformDefinition × RS :=
    let px0 := randomBetween 4 8 rs2
    let pc := randomBetween 3 5 px0.2
    standardRowLoop params currentHeight (jsFloor pc.1) 20
      (params.levelMinX + px0.1) 0 pb.1 pc.2
  if row > 0 then
    let pz := mathRandom pb.2
    if pz.1 < 1/2 then
      zigzagLoop params currentHeight 0 5 pb.1 pz.2
    else
      goStandard pz.2
  else
    goStandard pb.2

/-- The structured-row `for` loop: `remaining` rows left, `row` the current
index; each iteration first advances `currentHeight` and breaks when it
exceeds `maxY`. -/
def rowsLoop (params : LevelGenerationParams) (firstRowY : ℚ) :
    ℕ → ℕ → ℚ → List PlatformDefinition → RS → List PlatformDefinition × RS
  | 0, _, _, ps, rs => (ps, rs)
  | remaining + 1, row, currentHeight, ps, rs =>
    let ph := randomBetween params.minPlatformSpacingY params.maxPlatformSpacingY rs
    let ch2 := currentHeight + ph.1
    if ch2 > params.maxY then (ps, ph.2)
    else
      let pr := rowBody params firstRowY row ch2 ps ph.2
      rowsLoop params firstRowY remaining (row + 1) ch2 pr.1 pr.2

/-- Stable insertion into an ascending list of rationals (for
`existingRows.sort((a, b) => a - b)`). -/
def insertQ (x : ℚ) : List ℚ → List ℚ
  | [] => [x]
  | y :: ys => if y ≤ x then y :: insertQ x ys else x :: y :: ys

/-- Stable sort of rationals ascending. -/
def sortQ : List ℚ → List ℚ
  | [] => []
  | x :: rest => insertQ x (sortQ rest)

/-- `Math.round(y * 2) / 2`: the half-unit row bucket of a platform height. -/
def roundHalf (q : ℚ) : ℚ := (jsRound (q * 2) : ℚ) / 2

/-- Collect the distinct row buckets in first-occurrence order
(`existingRows` accumulation). -/
def collectRows (l : List PlatformDefinition) : List ℚ :=
  l.foldl
    (fun acc p =>
      let r := roundHalf p.y
      if acc.any (fun a => decide (a = r)) then acc else acc ++ [r])
    []

/-- JS array indexing `arr[Math.floor(Math.random() * arr.length)]`:
out-of-range indices give `undefined` (`none`). -/
def jsIndex (l : List PlatformDefinition) (i : ℤ) : Option PlatformDefinition :=
  if i < 0 then none else l.get? i.toNat

/-- The inner connector loop: up to three attempts between one pair of
adjacent row buckets. -/
def connectorTriple (params : LevelGenerationParams)
    (lowerPlatforms upperPlatforms : List PlatformDefinition) :
    ℕ → List PlatformDefinition → RS → List PlatformDefinition × RS
  | 0, ps, rs => (ps, rs)
  | j + 1, ps, rs =>
    let r1 := mathRandom rs
    let r2 := mathRandom r1.2
    let lowerPlatform := jsIndex lowerPlatforms (jsFloor (r1.1 * lowerPlatforms.length))
    let upperPlatform := jsIndex upperPlatforms (jsFloor (r2.1 * upperPlatforms.length))
    match lowerPlatform, upperPlatform with
    | some lp, some up =>
      let pdx := randomBetween (-2) 2 r2.2
      let connectX := (lp.x + up.x) / 2 + pdx.1
      let connectY := (lp.y + up.y) / 2
      let pcw := randomBetween (3/2) (5/2) pdx.2
      let ps2 :=
        if isPlatformLocationValid connectX connectY pcw.1 params.minPlatformHeight ps params false then
          ps ++ [{ width := pcw.1, height := params.minPlatformHeight, x := connectX, y := connectY }]
        else ps
      connectorTriple params lowerPlatforms upperPlatforms j ps2 pcw.2
    | _, _ => connectorTriple params lowerPlatforms upperPlatforms j ps r2.2

/-- The outer connector loop over adjacent pairs of sorted row buckets. -/
def connectorLoop (params : LevelGenerationParams) (existingPlatforms : List PlatformDefinition) :
    List ℚ → List PlatformDefinition → RS → List PlatformDefinition × RS
  | [], ps, rs => (ps, rs)
  | [_], ps, rs => (ps, rs)
  | lowerRowY :: upperRowY :: rest, ps, rs =>
    if upperRowY - lowerRowY < 3/2 then
      connectorLoop params existingPlatforms (upperRowY :: rest) ps rs
    else
      let lowerPlatforms := existingPlatforms.filter (fun p => decide (|p.y - lowerRowY| < 1/2))
      let upperPlatforms := existingPlatforms.filter (fun p => decide (|p.y - upperRowY| < 1/2))
      let pt := connectorTriple params lowerPlatforms upperPlatforms 3 ps rs
      connectorLoop params existingPlatforms (upperRowY :: rest) pt.1 pt.2

/-- `generatePlatforms(params)`: spawn ground platform, segmented ground to
both sides, first elevated row, structured rows (with bridges on row 0),
and inter-row connector platforms. -/
def generatePlatforms (fuel : ℕ) (params : LevelGenerationParams) (rs : RS) :
    List PlatformDefinition × RS :=
  let ps0 : List PlatformDefinition :=
    [{ width := 12, height := params.groundHeight, x := 0, y := params.groundY }]
  let g1 := groundLeftLoop params fuel (-8) ps0 rs
  let g2 := groundRightLoop params fuel 8 g1.1 g1.2
  let pf := randomBetween (3/2) 2 g2.2
  let firstRowY := params.groundY + params.groundHeight / 2 + pf.1
  let px0 := randomBetween 4 8 pf.2
  let pc := randomBetween 5 8 px0.2
  let firstRowPlatformCount := jsFloor pc.1
  let f1 := firstRowLoop params firstRowY firstRowPlatformCount fuel
    (params.levelMinX + px0.1) 0 g2.1 pc.2
  let heightRange := params.maxY - firstRowY
  let avgRowSpacing := (params.minPlatformSpacingY + params.maxPlatformSpacingY) / 2
  let numRows := jsFloor (heightRange / avgRowSpacing) + 1
  let r1 := rowsLoop params firstRowY numRows.toNat 0 firstRowY f1.1 f1.2
  let existingPlatforms := r1.1.filter (fun p => decide (p.y > params.groundY + 1))
  let existingRows := sortQ (collectRows existingPlatforms)
  if existingRows.length > 1 then
    connectorLoop params existingPlatforms existingRows r1.1 r1.2
  else (r1.1, r1.2)

/-! ## `generateEnemies` -/

/-- The per-enemy placement inside the floating-platform enemy loop
(`j`-indexed segment placement); consumes the ambient color draw and the
conditional seeded speed draw in source order. -/
def placeEnemyOnPlatform (params : LevelGenerationParams) (platform : PlatformDefinition)
    (actualNumEnemies : ℤ) (j : ℕ) (rs : RS) : EnemyDefinition × RS :=
  let platformLeft := platform.x - platform.width / 2
  let xmr :=
    if actualNumEnemies > 1 then
      let segmentWidth := platform.width / (actualNumEnemies : ℚ)
      let segmentStart := platformLeft + (j : ℚ) * segmentWidth
      let segmentCenter := segmentStart + segmentWidth / 2
      (segmentCenter, max (1/2) (segmentWidth - 1),
        if segmentWidth ≥ 2 then EnemyMoveType.horizontal else EnemyMoveType.stationary)
    else
      (platform.x, max (1/2) (platform.width - 1),
        if platform.width ≥ 5/2 then EnemyMoveType.horizontal else EnemyMoveType.stationary)
  let pc := mathRandom rs
  let color : ℕ := if pc.1 < 3/10 then 16729344 else 16711680
  let psp :=
    if xmr.2.2 = EnemyMoveType.horizontal then randomBetween 1 2 pc.2
    else (0, pc.2)
  (({ width := 7/10, height := 7/10, x := xmr.1,
      y := platform.y + platform.height / 2 + 7/20, color := color,
      moveType := xmr.2.2, moveSpeed := psp.1, moveRange := xmr.2.1,
      gravity := 20 } : EnemyDefinition), psp.2)

/-- The inner `for j` loop placing `left` more enemies on one platform. -/
def enemiesOnPlatformLoop (params : LevelGenerationParams) (platform : PlatformDefinition)
    (actualNumEnemies : ℤ) :
    ℕ → ℕ → List EnemyDefinition → RS → List EnemyDefinition × RS
  | _, 0, es, rs => (es, rs)
  | j, left + 1, es, rs =>
    let pe := placeEnemyOnPlatform params platform actualNumEnemies j rs
    enemiesOnPlatformLoop params platform actualNumEnemies (j + 1) left (es ++ [pe.1]) pe.2

/-- The floating-platform enemy pass (`for i = 1; i < platforms.length`):
per platform an ambient density draw, a width gate, a seeded count draw
capped by platform capacity. -/
def enemyPlatformsLoop (params : LevelGenerationParams) :
    List PlatformDefinition → List EnemyDefinition → RS → List EnemyDefinition × RS
  | [], es, rs => (es, rs)
  | platform :: rest, es, rs =>
    let pd := mathRandom rs
    if pd.1 < params.enemyDensity then
      if platform.width < 2 then
        enemyPlatformsLoop params rest es pd.2
      else
        let maxEnemies := if platform.width < 3 then 1 else params.maxEnemiesPerPlatform
        let pn := randomBetween params.minEnemiesPerPlatform (maxEnemies + 99/100) pd.2
        let numEnemies := jsFloor pn.1
        let platformCapacity := jsFloor (platform.width / 2)
        let actualNumEnemies := min numEnemies platformCapacity
        if actualNumEnemies ≤ 0 then
          enemyPlatformsLoop params rest es pn.2
        else
          let pe := enemiesOnPlatformLoop params platform actualNumEnemies 0
            actualNumEnemies.toNat es pn.2
          enemyPlatformsLoop params rest pe.1 pe.2
    else
      enemyPlatformsLoop params rest es pd.2

/-- The inner ground-enemy loop: `left` more enemies on one ground segment,
`i` the running segment index. -/
def groundEnemiesOnSegment (params : LevelGenerationParams) (groundPlatform : PlatformDefinition)
    (numGroundEnemies : ℤ) :
    ℕ → ℕ → List EnemyDefinition → RS → List EnemyDefinition × RS
  | _, 0, es, rs => (es, rs)
  | i, left + 1, es, rs =>
    let groundLeft := groundPlatform.x - groundPlatform.width / 2
    let segmentWidth := groundPlatform.width / (numGroundEnemies : ℚ)
    let segmentStart := groundLeft + (i : ℚ) * segmentWidth
    let px := randomBetween (segmentStart + 3/5) (segmentStart + segmentWidth - 3/5) rs
    let pm := mathRandom px.2
    let moveType := if pm.1 < 3/5 then EnemyMoveType.horizontal else EnemyMoveType.stationary
    let psp := randomBetween (3/2) 3 pm.2
    let pmr := randomBetween 2 4 psp.2
    let e : EnemyDefinition :=
      { width := 7/10, height := 7/10, x := px.1,
        y := groundPlatform.y + groundPlatform.height / 2 + 7/20, color := 16711680,
        moveType := moveType, moveSpeed := psp.1, moveRange := pmr.1, gravity := 20 }
    groundEnemiesOnSegment params groundPlatform numGroundEnemies (i + 1) left (es ++ [e]) pmr.2

/-- The ground-segment enemy pass over the filtered wide ground platforms. -/
def groundEnemiesLoop (params : LevelGenerationParams) :
    List PlatformDefinition → List EnemyDefinition → RS → List EnemyDefinition × RS
  | [], es, rs => (es, rs)
  | groundPlatform :: rest, es, rs =>
    if |groundPlatform.x| < 3 then
      groundEnemiesLoop params rest es rs
    else
      let platformCapacity := jsFloor (groundPlatform.width / (5/2))
      let pn := randomBetween 1 (299/100) rs
      let numGroundEnemies := min (jsFloor pn.1) platformCapacity
      if numGroundEnemies ≤ 0 then
        groundEnemiesLoop params rest es pn.2
      else
        let pg := groundEnemiesOnSegment params groundPlatform numGroundEnemies 0
          numGroundEnemies.toNat es pn.2
        groundEnemiesLoop params rest pg.1 pg.2

/-- `generateEnemies(platforms, params)`. -/
def generateEnemies (platforms : List PlatformDefinition) (params : LevelGenerationParams)
    (rs : RS) : List EnemyDefinition × RS :=
  let p1 := enemyPlatformsLoop params (platforms.drop 1) [] rs
  let groundPlatforms := platforms.filter
    (fun p => decide (|p.y - params.groundY| < 1/10 ∧ p.width ≥ 5/2))
  groundEnemiesLoop params groundPlatforms p1.1 p1.2

/-! ## `generateCollectibles`

`Math.sin (Math.PI * r)` appears in the arch and trail placements and is
modelled by the explicit parameter `sinpi`. -/

/-- The inner per-platform collectible loop (`j`-indexed even spacing with
seeded jitter). -/
def collectiblesOnPlatformLoop (params : LevelGenerationParams) (platform : PlatformDefinition)
    (actualNumCollectibles : ℤ) :
    ℕ → ℕ → List CollectibleDefinition → RS → List CollectibleDefinition × RS
  | _, 0, cs, rs => (cs, rs)
  | j, left + 1, cs, rs =>
    let platformLeft := platform.x - platform.width / 2
    let x :=
      if actualNumCollectibles > 1 then
        let segmentWidth := platform.width / (actualNumCollectibles : ℚ)
        let segmentStart := platformLeft + (j : ℚ) * segmentWidth
        segmentStart + segmentWidth / 2
      else platform.x
    let pj := randomBetween (-(1/10)) (1/10) rs
    let c : CollectibleDefinition :=
      { radius := 3/10, x := x + pj.1,
        y := platform.y + platform.height / 2 + params.collectibleHeight }
    collectiblesOnPlatformLoop params platform actualNumCollectibles (j + 1) left (cs ++ [c]) pj.2

/-- The per-platform collectible pass (all platforms, ground included). -/
def collectiblePlatformsLoop (params : LevelGenerationParams) :
    List PlatformDefinition → List CollectibleDefinition → RS → List CollectibleDefinition × RS
  | [], cs, rs => (cs, rs)
  | platform :: rest, cs, rs =>
    if platform.width < 3/2 then
      collectiblePlatformsLoop params rest cs rs
    else
      let pd := mathRandom rs
      if pd.1 < params.collectibleDensity then
        let maxCollectiblesForSize := jsFloor (platform.width / (3/2))
        let pn := randomBetween params.minCollectiblesPerPlatform
          ((min params.maxCollectiblesPerPlatform (maxCollectiblesForSize : ℚ)) + 99/100) pd.2
        let numCollectibles := jsFloor pn.1
        let actualNumCollectibles := min numCollectibles (jsFloor (platform.width / (6/5)))
        let pc := collectiblesOnPlatformLoop params platform actualNumCollectibles 0
          actualNumCollectibles.toNat cs pn.2
        collectiblePlatformsLoop params rest pc.1 pc.2
      else
        collectiblePlatformsLoop params rest cs pd.2

/-- The arch of collectibles over one ground gap: `count` items indexed by
`j`, heights on a half-sine. -/
def gapArchItems (sinpi : ℚ → ℚ) (groundY currentRight gapWidth : ℚ)
    (count : ℤ) : ℕ → ℕ → List CollectibleDefinition
  | _, 0 => []
  | j, left + 1 =>
    let denom : ℚ := if count - 1 = 0 then 1 else ((count - 1 : ℤ) : ℚ)
    let ratio := (j : ℚ) / denom
    let x := currentRight + gapWidth * ratio
    let archHeight := sinpi ratio * (6/5)
    { radius := 3/10, x := x, y := groundY + 1 + archHeight } ::
      gapArchItems sinpi groundY currentRight gapWidth count (j + 1) left

/-- The gap-arch pass over consecutive sorted ground segments. -/
def gapArchLoop (sinpi : ℚ → ℚ) (groundY : ℚ) :
    List PlatformDefinition → List CollectibleDefinition → List CollectibleDefinition
  | [], cs => cs
  | [_], cs => cs
  | a :: b :: rest, cs =>
    let currentRight := a.x + a.width / 2
    let nextLeft := b.x - b.width / 2
    let gapWidth := nextLeft - currentRight
    if gapWidth > 3/2 then
      let numGapCollectibles := min (jsFloor (gapWidth / (4/5))) 5
      let cs2 := cs ++
        gapArchItems sinpi groundY currentRight gapWidth numGapCollectibles 0
          numGapCollectibles.toNat
      gapArchLoop sinpi groundY (b :: rest) cs2
    else
      gapArchLoop sinpi groundY (b :: rest) cs

/-- The trail collectibles between one pair of floating platforms
(`k = 1..numTrailCollectibles` along a slightly arched path). -/
def trailItems (sinpi : ℚ → ℚ) (startX startY endX endY : ℚ) (total : ℤ) :
    ℕ → ℕ → List CollectibleDefinition
  | _, 0 => []
  | k, left + 1 =>
    let ratio := (k : ℚ) / ((total + 1 : ℤ) : ℚ)
    { radius := 3/10, x := startX + (endX - startX) * ratio,
      y := startY + (endY - startY) * ratio + sinpi ratio * (1/2) } ::
      trailItems sinpi startX startY endX endY total (k + 1) left

/-- The inner trail loop: pair a fixed `platformA` with each later platform. -/
def trailInnerLoop (sinpi : ℚ → ℚ) (params : LevelGenerationParams)
    (platformA : PlatformDefinition) :
    List PlatformDefinition → List CollectibleDefinition → RS → List CollectibleDefinition × RS
  | [], cs, rs => (cs, rs)
  | platformB :: rest, cs, rs =>
    let horizontalDist := |platformA.x - platformB.x|
    let verticalDist := |platformA.y - platformB.y|
    if horizontalDist > 3 ∧ horizontalDist < params.playerJumpDistance * (6/5) ∧
        verticalDist < params.playerJumpHeight * (4/5) then
      let pt := mathRandom rs
      if pt.1 < 3/10 then
        let startX := platformA.x
        let startY := platformA.y + platformA.height / 2 + 3/10
        let endX := platformB.x
        let endY := platformB.y + platformB.height / 2 + 3/10
        let pn := randomBetween 2 (399/100) pt.2
        let numTrailCollectibles := jsFloor pn.1
        let cs2 := cs ++
          trailItems sinpi startX startY endX endY numTrailCollectibles 1
            numTrailCollectibles.toNat
        trailInnerLoop sinpi params platformA rest cs2 pn.2
      else
        trailInnerLoop sinpi params platformA rest cs pt.2
    else
      trailInnerLoop sinpi params platformA rest cs rs

/-- The outer trail loop over ordered pairs of floating platforms. -/
def trailOuterLoop (sinpi : ℚ → ℚ) (params : LevelGenerationParams) :
    List PlatformDefinition → List CollectibleDefinition → RS → List CollectibleDefinition × RS
  | [], cs, rs => (cs, rs)
  | platformA :: rest, cs, rs =>
    let pi1 := trailInnerLoop sinpi params platformA rest cs rs
    trailOuterLoop sinpi params rest pi1.1 pi1.2

/-- `generateCollectibles(platforms, params)`. -/
def generateCollectibles (sinpi : ℚ → ℚ) (platforms : List PlatformDefinition)
    (params : LevelGenerationParams) (rs : RS) : List CollectibleDefinition × RS :=
  let p1 := collectiblePlatformsLoop params platforms [] rs
  let groundSegments :=
    sortByX (platforms.filter (fun p => decide (|p.y - params.groundY| < 1/10)))
  let cs2 :=
    if groundSegments.length > 1 then gapArchLoop sinpi params.groundY groundSegments p1.1
    else p1.1
  let floatingPlatforms := platforms.filter (fun p => decide (p.y > params.groundY + 3/5))
  trailOuterLoop sinpi params floatingPlatforms cs2 p1.2

/-! ## Seed handling and `generateLevel` -/

/-- `setRandomSeed(seed?)` composed with the `SeededRandom` constructor:
`newSeed = seed || Math.floor(Math.random() * 1000000)` (the ambient draw
happens only when `seed` is absent or `0`, since `0` is falsy), and the
constructor falls back to another ambient draw when handed a falsy seed.
Returns the generator state; `getCurrentSeed()` then reads its seed. -/
def setRandomSeed (seedArg : Option ℕ) (rs : RS) : RS :=
  let pNew : ℕ × RS :=
    match seedArg with
    | some s => if s ≠ 0 then (s, rs) else
        let pr := mathRandom rs
        ((jsFloor (pr.1 * 1000000)).toNat, pr.2)
    | none =>
        let pr := mathRandom rs
        ((jsFloor (pr.1 * 1000000)).toNat, pr.2)
  let pCtor : ℕ × RS :=
    if pNew.1 ≠ 0 then (pNew.1, pNew.2) else
      let pr := mathRandom pNew.2
      ((jsFloor (pr.1 * 1000000)).toNat, pr.2)
  { pCtor.2 with seed := pCtor.1 }

/-- The value returned by `generateLevel`. -/
structure GeneratedLevel where
  platforms : List PlatformDefinition
  enemies : List EnemyDefinition
  collectibles : List CollectibleDefinition
  seed : ℕ
deriving Repr

/-- `generateLevel(params)`: seed the module RNG (`params.seed` when
truthy, otherwise a fresh ambient seed), record the seed actually in use,
then generate platforms, enemies and collectibles in order. -/
def generateLevel (sinpi : ℚ → ℚ) (fuel : ℕ) (params : LevelGenerationParams)
    (seedArg : Option ℕ) (amb : ℕ → ℚ) : GeneratedLevel :=
  let rs0 := setRandomSeed seedArg { seed := 0, amb := amb, ai := 0 }
  let currentSeed := rs0.seed
  let pp := generatePlatforms fuel params rs0
  let pe := generateEnemies pp.1 params pp.2
  let pc := generateCollectibles sinpi pp.1 params pe.2
  { platforms := pp.1, enemies := pe.1, collectibles := pc.1, seed := currentSeed }

/-! ## Claim-level predicates and concrete scenario data -/

/-- A constant ambient `Math.random` stream. -/
def ambConst (q : ℚ) : ℕ → ℚ := fun _ => q

/-- A placeholder model of `Math.sin (Math.PI * r)`; the platform-level facts
proved below do not depend on it. -/
def sinZero : ℚ → ℚ := fun _ => 0

/-- "Ground-tier" exactly as the source's `isGroundPlatform` classifies an
existing platform: its center height is within `0.1` of the default ground
height. -/
abbrev groundTier (p : PlatformDefinition) : Prop :=
  |p.y - DEFAULT_LEVEL_PARAMS.groundY| < 1/10

/-- Strict AABB overlap of two platforms (the source's
direct-overlap test). -/
abbrev aabbOverlap (p q : PlatformDefinition) : Prop :=
  p.x + p.width / 2 > q.x - q.width / 2 ∧ p.x - p.width / 2 < q.x + q.width / 2 ∧
    p.y + p.height / 2 > q.y - q.height / 2 ∧ p.y - p.height / 2 < q.y + q.height / 2

/-- Strict overlap of the two AABBs after each is expanded by the 1.0-unit
buffer on every side. -/
abbrev bufferedOverlap (p q : PlatformDefinition) : Prop :=
  p.x + p.width / 2 + 1 > q.x - q.width / 2 - 1 ∧
    p.x - p.width / 2 - 1 < q.x + q.width / 2 + 1 ∧
    p.y + p.height / 2 + 1 > q.y - q.height / 2 - 1 ∧
    p.y - p.height / 2 - 1 < q.y + q.height / 2 + 1

/-- A 24-unit-wide parameter set (only the level bounds differ from the
defaults); small enough for kernel evaluation of full generator runs. -/
def narrowParams : LevelGenerationParams :=
  { DEFAULT_LEVEL_PARAMS with levelWidth := 24, levelMinX := -12, levelMaxX := 12 }

/-- A 40-unit-wide parameter set. -/
def mediumParams : LevelGenerationParams :=
  { DEFAULT_LEVEL_PARAMS with levelWidth := 40, levelMinX := -20, levelMaxX := 20 }

/-- Malformed parameters with `levelMinX > levelMaxX`. -/
def invertedBoundsParams : LevelGenerationParams :=
  { DEFAULT_LEVEL_PARAMS with levelMinX := 10, levelMaxX := -10 }

/-! ## C1 — seed determinism of `generateLevel` -/

/-- **C1.** The claim says two `generateLevel` calls with the same params and
seed yield identical platform/enemy/collectible geometry.  The code draws
from the ambient `Math.random()` inside geometry decisions (ground-gap
choices, zig-zag row selection, enemy/collectible density rolls, connector
selection), so two calls with seed 42 and the same params — differing only
in what the ambient source happened to return — produce different platform
arrays.  Here: same `narrowParams`, same seed 42; ambient stream constantly
`1/2` versus constantly `0`. -/
theorem c1_same_seed_ambient_randomness_changes_geometry :
    (generateLevel sinZero 60 narrowParams (some 42) (ambConst (1/2))).platforms ≠
      (generateLevel sinZero 60 narrowParams (some 42) (ambConst 0)).platforms := by
  with_unfolding_all decide

/-! ## C4 — simultaneous left+right input -/

/-- Both a left key and a right key held. -/
def keysLeftAndRight : String → Bool := fun k => k == "ArrowLeft" || k == "ArrowRight"

/-- The default player configuration (`DEFAULT_PLAYER`), as a physics
state. -/
def defaultPlayerState : PlayerState :=
  { px := 0, py := -7/2, vx := 0, vy := 0, isGrounded := true, width := 5/4, height := 5/4,
    speed := 5, jumpForce := 10, gravity := 20, isMoving := false, facingLeft := false }

/-- **C4.** The claim (and the repository's own test
`player.test.ts`, "should handle simultaneous keyboard inputs correctly")
says right wins: `velocity.x = +speed`.  The code tests the left-key branch
first, so with ArrowLeft and ArrowRight both held the update sets
`velocity.x = -speed = -5`, not `+5`: left wins. -/
theorem c4_left_wins_when_both_held :
    (playerUpdate keysLeftAndRight (1/60) defaultPlayerState).vx = -5 ∧
      (playerUpdate keysLeftAndRight (1/60) defaultPlayerState).vx ≠
        defaultPlayerState.speed := by
  with_unfolding_all decide

/-! ## C5 — malformed params and fail-fast -/

/-- **C5.** The claim says malformed `LevelGenerationParams`
(`levelMinX >= levelMaxX`) make `generateLevel` fail hard before any
entity is constructed.  The generator contains no validation and cannot
fail: with `levelMinX = 10 > -10 = levelMaxX` it silently returns a
degenerate level containing exactly one platform (the spawn ground
platform) and still constructs collectibles on it. -/
theorem c5_degenerate_level_returned :
    (generateLevel sinZero 60 invertedBoundsParams (some 7) (ambConst (1/2))).platforms.length
        = 1 ∧
      (generateLevel sinZero 60 invertedBoundsParams (some 7) (ambConst (1/2))).collectibles.length
        = 3 := by
  with_unfolding_all decide

/-! ## C7 — the jump example scenario -/

/-- Only a jump key held. -/
def keysJumpOnly : String → Bool := fun k => k == "ArrowUp"

/-- No keys held. -/
def keysNone : String → Bool := fun _ => false

/-- **C7 counterexample.** The claim's value for the *second* tick is wrong:
gravity is applied in the same tick as the jump impulse, so the velocity
after the second update is `10 - 2 * 20/60 = 28/3 ≈ 9.333`, a full gravity
step (`1/3`) below the claimed `10 - 20/60 = 29/3 ≈ 9.667`. -/
theorem c7_second_tick_velocity_differs :
    (playerUpdate keysNone (1/60) (playerUpdate keysJumpOnly (1/60) defaultPlayerState)).vy
        = 28/3 ∧
      (10 - 20/60 : ℚ) -
        (playerUpdate keysNone (1/60) (playerUpdate keysJumpOnly (1/60) defaultPlayerState)).vy
        = 1/3 := by
  with_unfolding_all decide

/-- **C7 amended.** With gravity=20, jumpForce=10, dt=1/60, starting
grounded: after one update with a jump key held the vertical velocity is
already `10 - 20/60 = 29/3 > 0` and `isGrounded` is false; after one
further update with no platform below it is `10 - 40/60 = 28/3 ≈ 9.333`. -/
theorem c7_jump_tick_values :
    (playerUpdate keysJumpOnly (1/60) defaultPlayerState).vy = 10 - 20/60 ∧
      (playerUpdate keysJumpOnly (1/60) defaultPlayerState).vy > 0 ∧
      (playerUpdate keysJumpOnly (1/60) defaultPlayerState).isGrounded = false ∧
      (playerUpdate keysNone (1/60) (playerUpdate keysJumpOnly (1/60) defaultPlayerState)).vy
        = 10 - 40/60 := by
  with_unfolding_all decide

/-! ## C9 — seed 0 -/

/-- **C9 counterexample.** The claim says the returned `seed` field is never
`0`.  `setRandomSeed`'s fallback is `Math.floor(Math.random() * 1000000)`,
which is itself `0` whenever the ambient draw is below `10⁻⁶`; the
`SeededRandom` constructor then redraws once and can again get `0`.  With an
ambient stream returning `0`, calling `generateLevel` with seed `0` returns
`seed = 0`. -/
theorem c9_seed_zero_returned_seed_zero :
    (generateLevel sinZero 30 invertedBoundsParams (some 0) (ambConst 0)).seed = 0 := by
  with_unfolding_all decide

/-- **C9 amended.** Seed `0` is falsy, so `generateLevel` with seed `0`
behaves *exactly* like a call with no seed (same ambient stream): a fresh
ambient seed is drawn and the level is not reproducible from the passed
seed.  (The returned seed equals the ambient fallback draw, which is
nonzero unless the ambient source yields a draw below `10⁻⁶` — see the
counterexample.) -/
theorem c9_seed_zero_behaves_like_absent (sinpi : ℚ → ℚ) (fuel : ℕ)
    (params : LevelGenerationParams) (amb : ℕ → ℚ) :
    generateLevel sinpi fuel params (some 0) amb =
      generateLevel sinpi fuel params none amb := rfl

/-! ## C8 — collectibles are never double-reported -/

/-- Every index reported by the collectible pass starting at base index `k`
is at least `k`. -/
theorem collectGo_index_ge (left right top bottom : ℚ) :
    ∀ (cs : List CollectibleState) (k i : ℕ),
      i ∈ (collectGo left right top bottom k cs).1 → k ≤ i := by
  intro cs
  induction cs with
  | nil => intro k i h; simp [collectGo] at h
  | cons c rest ih =>
    intro k i h
    simp only [collectGo] at h
    split_ifs at h with h1 h2
    · exact Nat.le_of_succ_le (ih (k + 1) i h)
    · rcases List.mem_cons.1 h with h3 | h3
      · omega
      · exact Nat.le_of_succ_le (ih (k + 1) i h3)
    · exact Nat.le_of_succ_le (ih (k + 1) i h)

/-- An index reported by one collectible pass is never reported by a second
pass run on the updated list, whatever the player rectangles of the two
passes are: the first pass marked that item `isCollected`, and the second
pass skips collected items. -/
theorem collectGo_not_twice (L1 R1 T1 B1 L2 R2 T2 B2 : ℚ) :
    ∀ (cs : List CollectibleState) (k i : ℕ),
      i ∈ (collectGo L1 R1 T1 B1 k cs).1 →
      i ∉ (collectGo L2 R2 T2 B2 k (collectGo L1 R1 T1 B1 k cs).2).1 := by
  intro cs
  induction cs with
  | nil => intro k i h; simp [collectGo] at h
  | cons c rest ih =>
    intro k i h hmem2
    simp only [collectGo] at h hmem2
    split_ifs at h hmem2 with h1 h2
    · -- skipped (already collected) in tick 1; still collected in tick 2
      replace h : i ∈ (collectGo L1 R1 T1 B1 (k + 1) rest).1 := h
      replace hmem2 : i ∈ (collectGo L2 R2 T2 B2 k
          (c :: (collectGo L1 R1 T1 B1 (k + 1) rest).2)).1 := hmem2
      simp only [collectGo] at hmem2
      rw [if_pos h1] at hmem2
      replace hmem2 : i ∈ (collectGo L2 R2 T2 B2 (k + 1)
          (collectGo L1 R1 T1 B1 (k + 1) rest).2).1 := hmem2
      exact ih (k + 1) i h hmem2
    · -- collected in tick 1: head is marked collected, tick 2 skips it
      replace h : i ∈ k :: (collectGo L1 R1 T1 B1 (k + 1) rest).1 := h
      replace hmem2 : i ∈ (collectGo L2 R2 T2 B2 k
          ({ c with isCollected := true } ::
            (collectGo L1 R1 T1 B1 (k + 1) rest).2)).1 := hmem2
      simp only [collectGo, if_true] at hmem2
      replace hmem2 : i ∈ (collectGo L2 R2 T2 B2 (k + 1)
          (collectGo L1 R1 T1 B1 (k + 1) rest).2).1 := hmem2
      rcases List.mem_cons.1 h with h5 | h5
      · subst h5
        have := collectGo_index_ge L2 R2 T2 B2 _ (i + 1) i hmem2
        omega
      · exact ih (k + 1) i h5 hmem2
    · -- missed in tick 1: head unchanged, tick 2 may collect it afresh
      replace h : i ∈ (collectGo L1 R1 T1 B1 (k + 1) rest).1 := h
      replace hmem2 : i ∈ (collectGo L2 R2 T2 B2 k
          (c :: (collectGo L1 R1 T1 B1 (k + 1) rest).2)).1 := hmem2
      simp only [collectGo] at hmem2
      rw [if_neg h1] at hmem2
      have hge := collectGo_index_ge L1 R1 T1 B1 rest (k + 1) i h
      split_ifs at hmem2 with h4
      · replace hmem2 : i ∈ k :: (collectGo L2 R2 T2 B2 (k + 1)
            (collectGo L1 R1 T1 B1 (k + 1) rest).2).1 := hmem2
        rcases List.mem_cons.1 hmem2 with h6 | h6
        · omega
        · exact ih (k + 1) i h h6
      · replace hmem2 : i ∈ (collectGo L2 R2 T2 B2 (k + 1)
            (collectGo L1 R1 T1 B1 (k + 1) rest).2).1 := hmem2
        exact ih (k + 1) i h hmem2

/-- **C8.** Across two consecutive ticks (arbitrary player states in each),
`checkCollectibleCollisions` reports a collectible's index at most once:
an index reported in the first tick is absent from the second tick's
report, because the first call marked the item collected and the second
call skips it — so the score is incremented only once for it. -/
theorem c8_collectible_reported_at_most_once (p1 p2 : PlayerState)
    (cs : List CollectibleState) (i : ℕ)
    (h : i ∈ (checkCollectibleCollisions p1 cs).1) :
    i ∉ (checkCollectibleCollisions p2 (checkCollectibleCollisions p1 cs).2).1 :=
  collectGo_not_twice _ _ _ _ _ _ _ _ cs 0 i h

/-- **C8 witness.** A collectible centered inside the default player is
reported in tick 1 and not reported again in tick 2. -/
theorem c8_collectible_reported_at_most_once_witness :
    0 ∈ (checkCollectibleCollisions defaultPlayerState
        [{ radius := 3/10, cx := 0, cy := -7/2, isCollected := false }]).1 ∧
      0 ∉ (checkCollectibleCollisions defaultPlayerState
        (checkCollectibleCollisions defaultPlayerState
          [{ radius := 3/10, cx := 0, cy := -7/2, isCollected := false }]).2).1 :=
  ⟨by with_unfolding_all decide,
    c8_collectible_reported_at_most_once defaultPlayerState defaultPlayerState _ 0
      (by with_unfolding_all decide)⟩

/-! ## C10 — airborne horizontal enemies flip direction every pass -/

/-- The collision resolver never touches `moveType`, `direction`, `speed`,
`moveRange` or `initialX`. -/
theorem resolveEnemyPlatform_preserves (s : EnemyState) (p : MeshRect) :
    (resolveEnemyPlatform s p).moveType = s.moveType ∧
      (resolveEnemyPlatform s p).direction = s.direction ∧
      (resolveEnemyPlatform s p).speed = s.speed ∧
      (resolveEnemyPlatform s p).moveRange = s.moveRange ∧
      (resolveEnemyPlatform s p).initialX = s.initialX := by
  simp only [resolveEnemyPlatform]
  split_ifs <;> simp

/-- The collision resolver can only zero the horizontal velocity, never make
it nonzero. -/
theorem resolveEnemyPlatform_vx_zero (s : EnemyState) (p : MeshRect) (h : s.vx = 0) :
    (resolveEnemyPlatform s p).vx = 0 := by
  simp only [resolveEnemyPlatform]
  split_ifs <;> simp [h]

/-- Folding the resolver over any platform list keeps a zero horizontal
velocity at zero and preserves `moveType` and `direction`. -/
theorem foldResolve_vx_zero (ps : List MeshRect) :
    ∀ s : EnemyState, s.vx = 0 →
      (ps.foldl resolveEnemyPlatform s).vx = 0 ∧
        (ps.foldl resolveEnemyPlatform s).moveType = s.moveType ∧
        (ps.foldl resolveEnemyPlatform s).direction = s.direction := by
  induction ps with
  | nil => intro s h; exact ⟨h, rfl, rfl⟩
  | cons p rest ih =>
    intro s h
    have h1 := resolveEnemyPlatform_vx_zero s p h
    have h2 := resolveEnemyPlatform_preserves s p
    have h3 := ih (resolveEnemyPlatform s p) h1
    simp only [List.foldl_cons]
    exact ⟨h3.1, h3.2.1.trans h2.1, h3.2.2.trans h2.2.1⟩

/-- `updateEnemy` on an airborne enemy zeroes the horizontal velocity and
touches neither `moveType`, `direction` nor `isGrounded`. -/
theorem updateEnemy_airborne (dt : ℚ) (s : EnemyState) (h : s.isGrounded = false) :
    (updateEnemy dt s).vx = 0 ∧ (updateEnemy dt s).moveType = s.moveType ∧
      (updateEnemy dt s).direction = s.direction ∧
      (updateEnemy dt s).isGrounded = false := by
  simp [updateEnemy, h]

/-- **C10.** For every airborne (`isGrounded = false`) enemy with
`moveType = 'horizontal'`, one `updateEnemy` step followed by
`checkPlatformCollisions` flips `direction` — for *every* platform list,
wall contact or not: `updateEnemy` zeroes the airborne horizontal
velocity, the resolver can never make it nonzero again, and the override
flips `direction` whenever a horizontal-type enemy ends the pass with
`velocity.x === 0`. -/
theorem c10_airborne_flip_every_pass (dt : ℚ) (ps : List MeshRect) (s : EnemyState)
    (hmt : s.moveType = EnemyMoveType.horizontal) (hg : s.isGrounded = false) :
    (enemyCheckPlatformCollisions ps (updateEnemy dt s)).direction = -s.direction := by
  obtain ⟨hvx, hmt2, hdir, hg2⟩ := updateEnemy_airborne dt s hg
  unfold enemyCheckPlatformCollisions
  have h0 : ({ updateEnemy dt s with isGrounded := false } : EnemyState).vx = 0 := hvx
  obtain ⟨f1, f2, f3⟩ := foldResolve_vx_zero ps { updateEnemy dt s with isGrounded := false } h0
  rw [if_pos ⟨by rw [f2]; exact hmt2.trans hmt, f1⟩]
  simp only []
  rw [f3]
  exact congrArg Neg.neg hdir

/-- **C10 witness.** A freshly constructed (airborne) horizontal enemy flips
from direction `1` to `-1` after one update/collision pass with no
platforms at all. -/
theorem c10_airborne_flip_every_pass_witness :
    (mkEnemy (7/10) (7/10) 0 0 1 20 EnemyMoveType.horizontal 2).moveType
        = EnemyMoveType.horizontal ∧
      (mkEnemy (7/10) (7/10) 0 0 1 20 EnemyMoveType.horizontal 2).isGrounded = false ∧
      (enemyCheckPlatformCollisions []
          (updateEnemy (1/60) (mkEnemy (7/10) (7/10) 0 0 1 20 EnemyMoveType.horizontal 2))).direction
        = -(mkEnemy (7/10) (7/10) 0 0 1 20 EnemyMoveType.horizontal 2).direction :=
  ⟨rfl, rfl,
    c10_airborne_flip_every_pass (1/60) []
      (mkEnemy (7/10) (7/10) 0 0 1 20 EnemyMoveType.horizontal 2) rfl rfl⟩

/-! ## C6 — patrol bounds -/

/-- A sequence of `updateEnemy` steps. -/
def updateEnemySeq (dts : List ℚ) (s : EnemyState) : EnemyState :=
  dts.foldl (fun st dt => updateEnemy dt st) s

/-- One `updateEnemy` step keeps `|x - initialX|` within
`moveRange/2 + speed * Dmax` (one tick of travel at most past a bound),
keeps `direction` in `{1, -1}`, and never touches the patrol constants. -/
theorem updateEnemy_patrol_step (dt Dmax : ℚ) (s : EnemyState)
    (hdir : s.direction = 1 ∨ s.direction = -1)
    (hsp : 0 ≤ s.speed) (hR : 0 ≤ s.moveRange)
    (hdt0 : 0 ≤ dt) (hdtD : dt ≤ Dmax)
    (hx : |s.px - s.initialX| ≤ s.moveRange / 2 + s.speed * Dmax) :
    |(updateEnemy dt s).px - s.initialX| ≤ s.moveRange / 2 + s.speed * Dmax ∧
      ((updateEnemy dt s).direction = 1 ∨ (updateEnemy dt s).direction = -1) ∧
      (updateEnemy dt s).speed = s.speed ∧
      (updateEnemy dt s).moveRange = s.moveRange ∧
      (updateEnemy dt s).initialX = s.initialX := by
  have hsd : 0 ≤ s.speed * dt := mul_nonneg hsp hdt0
  have hsD : s.speed * dt ≤ s.speed * Dmax := mul_le_mul_of_nonneg_left hdtD hsp
  simp only [updateEnemy]
  split_ifs with h1 h2 h3
  · -- clamped at the upper patrol bound, direction flips to -1
    refine ⟨?_, Or.inr rfl, rfl, rfl, rfl⟩
    rw [abs_le]
    constructor <;> nlinarith [abs_nonneg (s.px - s.initialX)]
  · -- clamped at the lower patrol bound, direction flips to +1
    refine ⟨?_, Or.inl rfl, rfl, rfl, rfl⟩
    rw [abs_le]
    constructor <;> nlinarith [abs_nonneg (s.px - s.initialX)]
  · -- within bounds: walk one tick at direction * speed
    refine ⟨?_, hdir, rfl, rfl, rfl⟩
    rw [not_lt] at h3
    rw [not_lt] at h2
    rcases hdir with hd | hd <;> rw [hd] <;> rw [abs_le] <;> constructor <;> nlinarith
  · -- airborne or stationary: horizontal velocity zeroed, x unchanged
    refine ⟨?_, hdir, rfl, rfl, rfl⟩
    simpa using hx

/-- The patrol bound is invariant under any sequence of `updateEnemy` steps
with tick sizes in `[0, Dmax]`. -/
theorem updateEnemySeq_inv (Dmax : ℚ) :
    ∀ (dts : List ℚ) (s : EnemyState),
      (s.direction = 1 ∨ s.direction = -1) → 0 ≤ s.speed → 0 ≤ s.moveRange →
      (∀ dt ∈ dts, 0 ≤ dt ∧ dt ≤ Dmax) →
      |s.px - s.initialX| ≤ s.moveRange / 2 + s.speed * Dmax →
      |(updateEnemySeq dts s).px - s.initialX| ≤ s.moveRange / 2 + s.speed * Dmax ∧
        (updateEnemySeq dts s).initialX = s.initialX := by
  intro dts
  induction dts with
  | nil => intro s _ _ _ _ hx; exact ⟨hx, rfl⟩
  | cons dt rest ih =>
    intro s hdir hsp hR hdts hx
    obtain ⟨hb, hd2, he1, he2, he3⟩ :=
      updateEnemy_patrol_step dt Dmax s hdir hsp hR (hdts dt (by simp)).1 (hdts dt (by simp)).2 hx
    have hrest : ∀ d ∈ rest, 0 ≤ d ∧ d ≤ Dmax := fun d hd => hdts d (List.mem_cons_of_mem _ hd)
    have hx2 : |(updateEnemy dt s).px - (updateEnemy dt s).initialX| ≤
        (updateEnemy dt s).moveRange / 2 + (updateEnemy dt s).speed * Dmax := by
      rw [he1, he2, he3]; exact hb
    have hrec := ih (updateEnemy dt s) hd2 (he1 ▸ hsp) (he2 ▸ hR) hrest hx2
    have heq : updateEnemySeq (dt :: rest) s = updateEnemySeq rest (updateEnemy dt s) := rfl
    refine ⟨?_, ?_⟩
    · rw [heq]
      rw [he1, he2, he3] at hrec
      exact hrec.1
    · rw [heq, hrec.2, he3]

/-- **C6 amended.** A `'horizontal'` enemy starting at its anchor
(`position.x = initialX`) stays within `|x - initialX| ≤ moveRange/2 + ε`
with `ε = speed * Dmax` (one tick of horizontal travel) under *any*
sequence of `updateEnemy` steps with tick sizes in `[0, Dmax]`.  The
original claim also allowed interleaved `checkPlatformCollisions` calls;
those can break any such bound (see the counterexample), because a
horizontal wall resolution teleports the body by the full penetration
depth. -/
theorem c6_patrol_bound_under_updateEnemy (s : EnemyState) (dts : List ℚ) (Dmax : ℚ)
    (hmt : s.moveType = EnemyMoveType.horizontal)
    (hdir : s.direction = 1 ∨ s.direction = -1)
    (hsp : 0 ≤ s.speed) (hR : 0 ≤ s.moveRange) (hD : 0 ≤ Dmax)
    (hstart : s.px = s.initialX)
    (hdts : ∀ dt ∈ dts, 0 ≤ dt ∧ dt ≤ Dmax) :
    |(updateEnemySeq dts s).px - s.initialX| ≤ s.moveRange / 2 + s.speed * Dmax := by
  have hx : |s.px - s.initialX| ≤ s.moveRange / 2 + s.speed * Dmax := by
    rw [hstart]
    simp only [sub_self, abs_zero]
    have := mul_nonneg hsp hD
    linarith
  exact (updateEnemySeq_inv Dmax dts s hdir hsp hR hdts hx).1

/-- **C6 witness.** The freshly spawned patrol enemy (speed 1, range 2),
grounded on its platform, stays within `1 + 1/60` of its anchor over two
1/60-second ticks. -/
theorem c6_patrol_bound_under_updateEnemy_witness :
    (({ mkEnemy (7/10) (7/10) 0 0 1 20 EnemyMoveType.horizontal 2 with
        isGrounded := true } : EnemyState).moveType = EnemyMoveType.horizontal ∧
      (0 : ℚ) ≤ 1/60) ∧
      |(updateEnemySeq [1/60, 1/60]
          { mkEnemy (7/10) (7/10) 0 0 1 20 EnemyMoveType.horizontal 2 with
            isGrounded := true }).px - 0| ≤ 2 / 2 + 1 * (1/60) :=
  ⟨⟨rfl, by norm_num⟩,
    c6_patrol_bound_under_updateEnemy
      { mkEnemy (7/10) (7/10) 0 0 1 20 EnemyMoveType.horizontal 2 with isGrounded := true }
      [1/60, 1/60] (1/60) rfl (Or.inl rfl) (by with_unfolding_all decide)
      (by with_unfolding_all decide) (by norm_num) rfl
      (by with_unfolding_all decide)⟩

/-- The two-tick scenario for the C6 counterexample: the enemy lands on its
platform in tick 1, then in tick 2 a deeply overlapping platform's wall
resolution relocates it far outside the patrol range. -/
def c6EscapeState : EnemyState :=
  enemyCheckPlatformCollisions [{ x := -95/2, y := 0, width := 105, height := 40 }]
    (updateEnemy (1/60)
      (enemyCheckPlatformCollisions [{ x := 0, y := -17/20, width := 10, height := 1 }]
        (updateEnemy (1/60) (mkEnemy (7/10) (7/10) 0 0 1 20 EnemyMoveType.horizontal 2))))

/-- **C6 counterexample.** The claim quantifies over sequences of
`updateEnemy` *and* `checkPlatformCollisions` steps.  Starting at the
anchor (`initialX = 0`, `moveRange = 2`, `speed = 1`), after two
update/collision cycles the enemy sits at `x = 107/20 = 5.35`:
`|x - initialX| = 5.35`, far beyond `moveRange/2 + ε` for any small ε
(here checked against `1 + 1/60 + 1`): the wall resolution of
`checkPlatformCollisions` moved the body by the full penetration depth. -/
theorem c6_wall_resolution_escapes_patrol_bounds :
    c6EscapeState.px = 107/20 ∧
      ¬(|c6EscapeState.px -
          (mkEnemy (7/10) (7/10) 0 0 1 20 EnemyMoveType.horizontal 2).initialX| ≤
        (mkEnemy (7/10) (7/10) 0 0 1 20 EnemyMoveType.horizontal 2).moveRange / 2 +
          (mkEnemy (7/10) (7/10) 0 0 1 20 EnemyMoveType.horizontal 2).speed * (1/60) + 1) := by
  with_unfolding_all decide


/-! ## C2/C3 — the generator placement invariant

Every platform pushed by an elevated-phase loop passes
`isPlatformLocationValid`; the segmented-ground loops place each new
segment strictly beyond the extent already covered.  Both facts are packaged
into `GenInv` (pairwise direct-AABB disjointness for the tier-respecting
pairs, a ground-height head platform, and the `Reach` linkage property) and
carried through every loop of `generatePlatforms`. -/


theorem seededNext_fst_nonneg (rs : RS) : 0 ≤ (seededNext rs).1 := by
  simp only [seededNext]
  positivity

theorem randomBetween_fst_ge (lo hi : ℚ) (rs : RS) (h : lo ≤ hi) :
    lo ≤ (randomBetween lo hi rs).1 := by
  simp only [randomBetween]
  have h1 := seededNext_fst_nonneg rs
  nlinarith

abbrev noOverlapPair (p q : PlatformDefinition) : Prop :=
  (groundTier p ↔ groundTier q) → ¬ aabbOverlap p q

theorem aabbOverlap_symm (p q : PlatformDefinition) (h : aabbOverlap p q) : aabbOverlap q p :=
  ⟨h.2.1, h.1, h.2.2.2, h.2.2.1⟩

theorem noOverlapPair_symm (p q : PlatformDefinition) (h : noOverlapPair p q) :
    noOverlapPair q p :=
  fun hiff hov => h hiff.symm (aabbOverlap_symm q p hov)

theorem overlapsOne_false_noOverlap (pw ph px py : ℚ) (q : PlatformDefinition)
    (h : overlapsOne px py pw ph q = false)
    (hiff : groundTier (⟨pw, ph, px, py⟩ : PlatformDefinition) ↔ groundTier q) :
    ¬ aabbOverlap (⟨pw, ph, px, py⟩ : PlatformDefinition) q := by
  intro hov
  have hdir : (decide (px + pw / 2 > q.x - q.width / 2 ∧ px - pw / 2 < q.x + q.width / 2) &&
      decide (py + ph / 2 > q.y - q.height / 2 ∧ py - ph / 2 < q.y + q.height / 2)) = true := by
    simp only [Bool.and_eq_true, decide_eq_true_eq]
    exact ⟨⟨hov.1, hov.2.1⟩, hov.2.2.1, hov.2.2.2⟩
  simp only [overlapsOne] at h
  by_cases hskip : (isGroundPlatformD q && isFloatingYD py) = true
  · rw [Bool.and_eq_true] at hskip
    have hqg : groundTier q := by
      have := hskip.1
      simp only [isGroundPlatformD, decide_eq_true_eq] at this
      exact this
    have hfl : |py - DEFAULT_LEVEL_PARAMS.groundY| > 1/2 := by
      have := hskip.2
      simp only [isFloatingYD, decide_eq_true_eq] at this
      exact this
    have hcg : |py - DEFAULT_LEVEL_PARAMS.groundY| < 1/10 := hiff.2 hqg
    linarith
  · rw [if_neg hskip, if_pos hdir] at h
    exact absurd h (by simp)

theorem valid_implies_no_overlap (px py pw ph : ℚ) (existing : List PlatformDefinition)
    (params : LevelGenerationParams) (b : Bool)
    (h : isPlatformLocationValid px py pw ph existing params b = true) :
    platformOverlaps px py pw ph existing = false := by
  by_contra hne
  have ht : platformOverlaps px py pw ph existing = true := by
    cases hb : platformOverlaps px py pw ph existing
    · exact absurd hb hne
    · rfl
  simp [isPlatformLocationValid, ht] at h

theorem valid_pair_ok (px py pw ph : ℚ) (existing : List PlatformDefinition)
    (params : LevelGenerationParams) (b : Bool)
    (h : isPlatformLocationValid px py pw ph existing params b = true)
    (q : PlatformDefinition) (hq : q ∈ existing) :
    noOverlapPair q (⟨pw, ph, px, py⟩ : PlatformDefinition) := by
  apply noOverlapPair_symm
  intro hiff
  have hno := valid_implies_no_overlap px py pw ph existing params b h
  rw [platformOverlaps, List.any_eq_false] at hno
  have := hno q hq
  exact overlapsOne_false_noOverlap pw ph px py q (by simpa using this) hiff

theorem pairwise_append_valid (ps : List PlatformDefinition)
    (params : LevelGenerationParams) (b : Bool) (pw ph px py : ℚ)
    (h : isPlatformLocationValid px py pw ph ps params b = true)
    (hps : List.Pairwise noOverlapPair ps) :
    List.Pairwise noOverlapPair (ps ++ [(⟨pw, ph, px, py⟩ : PlatformDefinition)]) := by
  rw [List.pairwise_append]
  refine ⟨hps, List.pairwise_singleton _ _, ?_⟩
  intro q hq c hc
  simp only [List.mem_singleton] at hc
  subst hc
  exact valid_pair_ok px py pw ph ps params b h q hq

/-- The reachability link tested by `isPlatformLocationValid`'s loop. -/
abbrev linkCond (params : LevelGenerationParams) (p q : PlatformDefinition) : Prop :=
  (|p.x - q.x| ≤ params.playerJumpDistance ∧
    p.y - q.y ≤ params.playerJumpHeight ∧ p.y - q.y ≥ -params.playerJumpHeight * 2) ∨
  (|p.x - q.x| < p.width / 2 + q.width / 2 + params.playerJumpDistance * (1/2) ∧
    |p.y - q.y| < params.playerJumpHeight)

/-- Every platform is on the ground line, within the first-row jump margin of
it, or linked to a platform at another index. -/
def Reach (params : LevelGenerationParams) (ps : List PlatformDefinition) : Prop :=
  ∀ i (hi : i < ps.length),
    (ps.get ⟨i, hi⟩).y = params.groundY ∨
    (ps.get ⟨i, hi⟩).y - params.groundY ≤ params.playerJumpHeight * (7/10) ∨
    ∃ q ∈ ps.eraseIdx i, linkCond params (ps.get ⟨i, hi⟩) q

set_option linter.deprecated false in
theorem reach_append (params : LevelGenerationParams) (ps : List PlatformDefinition)
    (c : PlatformDefinition) (h : Reach params ps)
    (hc : c.y = params.groundY ∨
      c.y - params.groundY ≤ params.playerJumpHeight * (7/10) ∨
      ∃ q ∈ ps, linkCond params c q) :
    Reach params (ps ++ [c]) := by
  intro i hi
  rcases Nat.lt_or_ge i ps.length with hlt | hge
  · have hget : (ps ++ [c]).get ⟨i, hi⟩ = ps.get ⟨i, hlt⟩ := by
      rw [List.get_append_left]
    have herase : (ps ++ [c]).eraseIdx i = ps.eraseIdx i ++ [c] :=
      List.eraseIdx_append_of_lt_length hlt [c]
    rcases h i hlt with h1 | h2 | ⟨q, hq, hl⟩
    · exact Or.inl (by rw [hget]; exact h1)
    · exact Or.inr (Or.inl (by rw [hget]; exact h2))
    · refine Or.inr (Or.inr ⟨q, ?_, ?_⟩)
      · rw [herase]
        exact List.mem_append_left _ hq
      · rw [hget]
        exact hl
  · have hlen : i = ps.length := by
      have := hi
      simp only [List.length_append, List.length_singleton] at this
      omega
    subst hlen
    have hget : (ps ++ [c]).get ⟨ps.length, hi⟩ = c := by
      simp
    have herase : (ps ++ [c]).eraseIdx ps.length = ps := by
      have := List.eraseIdx_append_of_length_le (le_refl ps.length) [c]
      simpa using this
    rw [hget, herase]
    exact hc

/-- The generation invariant: platforms pairwise respect the claim-level
no-direct-overlap property, the list starts with the spawn platform on the
ground line, and every platform satisfies the reachability disjunction. -/
def GenInv (params : LevelGenerationParams) (ps : List PlatformDefinition) : Prop :=
  List.Pairwise noOverlapPair ps ∧
    (∃ g t, ps = g :: t ∧ g.y = params.groundY) ∧
    Reach params ps

theorem valid_implies_reach_disjunct (px py pw ph : ℚ) (ps : List PlatformDefinition)
    (params : LevelGenerationParams) (b : Bool) (g : PlatformDefinition)
    (t : List PlatformDefinition) (hps : ps = g :: t) (hg : g.y = params.groundY)
    (h : isPlatformLocationValid px py pw ph ps params b = true) :
    py - params.groundY ≤ params.playerJumpHeight * (7/10) ∨
      ∃ q ∈ ps, linkCond params (⟨pw, ph, px, py⟩ : PlatformDefinition) q := by
  have hno := valid_implies_no_overlap px py pw ph ps params b h
  subst hps
  simp only [isPlatformLocationValid, hno, Bool.false_eq_true, if_false] at h
  by_cases hb : b = true
  · -- first-row margin branch
    subst hb
    simp only [List.isEmpty_cons, Bool.or_true, if_true, List.head?_cons] at h
    simp only [if_pos rfl, decide_eq_true_eq] at h
    left
    rw [← hg]
    exact h
  · -- general branch: some later-indexed platform links to the candidate
    have hbf : b = false := by
      cases b
      · rfl
      · exact absurd rfl hb
    subst hbf
    simp only [List.isEmpty_cons, Bool.or_false, Bool.false_eq_true, if_false] at h
    rw [List.any_eq_true] at h
    obtain ⟨q, hq, hr⟩ := h
    right
    refine ⟨q, List.mem_of_mem_drop hq, ?_⟩
    simp only [reachableFromOne, Bool.or_eq_true, Bool.and_eq_true, decide_eq_true_eq] at hr
    rcases hr with ⟨hh, hv⟩ | ⟨he, hv⟩
    · exact Or.inl ⟨hh, hv.1, hv.2⟩
    · exact Or.inr ⟨he, hv⟩

theorem genInv_push_valid (params : LevelGenerationParams) (ps : List PlatformDefinition)
    (b : Bool) (pw ph px py : ℚ)
    (h : isPlatformLocationValid px py pw ph ps params b = true)
    (hinv : GenInv params ps) :
    GenInv params (ps ++ [(⟨pw, ph, px, py⟩ : PlatformDefinition)]) := by
  obtain ⟨hpw, ⟨g, t, hgt, hg⟩, hr⟩ := hinv
  refine ⟨pairwise_append_valid ps params b pw ph px py h hpw, ?_, ?_⟩
  · exact ⟨g, t ++ [⟨pw, ph, px, py⟩], by rw [hgt]; simp, hg⟩
  · apply reach_append params ps _ hr
    rcases valid_implies_reach_disjunct px py pw ph ps params b g t hgt hg h with h1 | h2
    · exact Or.inr (Or.inl h1)
    · exact Or.inr (Or.inr h2)

theorem genInv_pushIf (params : LevelGenerationParams) (ps : List PlatformDefinition)
    (b : Bool) (pw ph px py : ℚ) (hinv : GenInv params ps) :
    GenInv params
      (if isPlatformLocationValid px py pw ph ps params b = true then
        ps ++ [(⟨pw, ph, px, py⟩ : PlatformDefinition)]
      else ps) := by
  split_ifs with h
  · exact genInv_push_valid params ps b pw ph px py h hinv
  · exact hinv

theorem headGY_append (params : LevelGenerationParams) (ps : List PlatformDefinition)
    (c : PlatformDefinition) (h : ∃ g t, ps = g :: t ∧ g.y = params.groundY) :
    ∃ g t, ps ++ [c] = g :: t ∧ g.y = params.groundY := by
  obtain ⟨g, t, hgt, hgy⟩ := h
  exact ⟨g, t ++ [c], by rw [hgt]; rfl, hgy⟩

theorem pairwise_append_one (ps : List PlatformDefinition) (c : PlatformDefinition)
    (hps : List.Pairwise noOverlapPair ps) (hno : ∀ q ∈ ps, noOverlapPair q c) :
    List.Pairwise noOverlapPair (ps ++ [c]) := by
  rw [List.pairwise_append]
  refine ⟨hps, List.pairwise_singleton _ _, ?_⟩
  intro q hq c2 hc2
  simp only [List.mem_singleton] at hc2
  subst hc2
  exact hno q hq

theorem noOverlap_of_le_left (q c : PlatformDefinition)
    (h : c.x + c.width / 2 ≤ q.x - q.width / 2) : noOverlapPair q c :=
  fun _ hov => absurd hov.2.1 (not_lt.2 h)

theorem noOverlap_of_ge_right (q c : PlatformDefinition)
    (h : q.x + q.width / 2 ≤ c.x - c.width / 2) : noOverlapPair q c :=
  fun _ hov => absurd hov.1 (not_lt.2 h)

/-- Invariant of the left segmented-ground loop. -/
def LeftInv (params : LevelGenerationParams) (currentX : ℚ)
    (ps : List PlatformDefinition) : Prop :=
  GenInv params ps ∧ currentX ≤ -8 ∧
    ∀ p ∈ ps, p.y = params.groundY ∧ currentX + 1 ≤ p.x - p.width / 2 ∧
      p.x + p.width / 2 ≤ 6

theorem groundLeftLoop_inv (params : LevelGenerationParams) :
    ∀ (fuel : ℕ) (currentX : ℚ) (ps : List PlatformDefinition) (rs : RS),
      LeftInv params currentX ps →
      GenInv params (groundLeftLoop params fuel currentX ps rs).1 ∧
        ∀ p ∈ (groundLeftLoop params fuel currentX ps rs).1,
          p.y = params.groundY ∧ p.x + p.width / 2 ≤ 6 := by
  intro fuel
  induction fuel with
  | zero =>
    intro currentX ps rs hinv
    exact ⟨hinv.1, fun p hp => ⟨(hinv.2.2 p hp).1, (hinv.2.2 p hp).2.2⟩⟩
  | succ n ih =>
    intro currentX ps rs hinv
    obtain ⟨hgen, hcx, hall⟩ := hinv
    simp only [groundLeftLoop]
    set w := min (randomBetween 3 8 (mathRandom rs).2).1
      (|currentX - params.levelMinX| - 2) with hwdef
    split_ifs with h1 hgap hw1
    · -- gap branch
      apply ih
      have hg2 : (2 : ℚ) ≤ (randomBetween 2 3 (mathRandom rs).2).1 :=
        randomBetween_fst_ge 2 3 _ (by norm_num)
      refine ⟨hgen, by linarith, ?_⟩
      intro p hp
      obtain ⟨hy, hl, hr⟩ := hall p hp
      exact ⟨hy, by linarith, hr⟩
    · -- pushed a ground segment spanning [currentX - w, currentX]
      apply ih
      refine ⟨⟨?_, ?_, ?_⟩, by linarith, ?_⟩
      · apply pairwise_append_one ps _ hgen.1
        intro q hq
        apply noOverlap_of_le_left
        have := (hall q hq).2.1
        simp only [PlatformDefinition.x, PlatformDefinition.width]
        linarith
      · exact headGY_append params ps _ hgen.2.1
      · exact reach_append params ps _ hgen.2.2 (Or.inl rfl)
      · intro p hp
        rcases List.mem_append.1 hp with hp1 | hp2
        · obtain ⟨hy, hl, hr⟩ := hall p hp1
          exact ⟨hy, by linarith, hr⟩
        · simp only [List.mem_singleton] at hp2
          subst hp2
          refine ⟨rfl, ?_, ?_⟩
          · simp only [PlatformDefinition.x, PlatformDefinition.width]
            ring_nf
            linarith
          · simp only [PlatformDefinition.x, PlatformDefinition.width]
            ring_nf
            linarith
    · -- too narrow: nothing pushed, cursor still advances
      apply ih
      have hseg : (3 : ℚ) ≤ (randomBetween 3 8 (mathRandom rs).2).1 :=
        randomBetween_fst_ge 3 8 _ (by norm_num)
      have habs : |currentX - params.levelMinX| = currentX - params.levelMinX :=
        abs_of_pos (by linarith)
      have hwpos : 0 < w := by
        rw [hwdef, habs]
        exact lt_min (by linarith) (by linarith)
      refine ⟨hgen, by linarith, ?_⟩
      intro p hp
      obtain ⟨hy, hl, hr⟩ := hall p hp
      exact ⟨hy, by linarith, hr⟩
    · exact ⟨hgen, fun p hp => ⟨(hall p hp).1, (hall p hp).2.2⟩⟩

/-- Invariant of the right segmented-ground loop. -/
def RightInv (params : LevelGenerationParams) (currentX : ℚ)
    (ps : List PlatformDefinition) : Prop :=
  GenInv params ps ∧ 8 ≤ currentX ∧
    ∀ p ∈ ps, p.y = params.groundY ∧ p.x + p.width / 2 ≤ currentX - 1

theorem groundRightLoop_inv (params : LevelGenerationParams) :
    ∀ (fuel : ℕ) (currentX : ℚ) (ps : List PlatformDefinition) (rs : RS),
      RightInv params currentX ps →
      GenInv params (groundRightLoop params fuel currentX ps rs).1 := by
  intro fuel
  induction fuel with
  | zero =>
    intro currentX ps rs hinv
    exact hinv.1
  | succ n ih =>
    intro currentX ps rs hinv
    obtain ⟨hgen, hcx, hall⟩ := hinv
    simp only [groundRightLoop]
    set w := min (randomBetween 3 8 (mathRandom rs).2).1
      (|params.levelMaxX - currentX| - 2) with hwdef
    split_ifs with h1 hgap hw1
    · -- gap branch
      apply ih
      have hg2 : (2 : ℚ) ≤ (randomBetween 2 3 (mathRandom rs).2).1 :=
        randomBetween_fst_ge 2 3 _ (by norm_num)
      refine ⟨hgen, by linarith, ?_⟩
      intro p hp
      obtain ⟨hy, hr⟩ := hall p hp
      exact ⟨hy, by linarith⟩
    · -- pushed a ground segment spanning [currentX, currentX + w]
      apply ih
      refine ⟨⟨?_, ?_, ?_⟩, by linarith, ?_⟩
      · apply pairwise_append_one ps _ hgen.1
        intro q hq
        apply noOverlap_of_ge_right
        have := (hall q hq).2
        simp only [PlatformDefinition.x, PlatformDefinition.width]
        linarith
      · exact headGY_append params ps _ hgen.2.1
      · exact reach_append params ps _ hgen.2.2 (Or.inl rfl)
      · intro p hp
        rcases List.mem_append.1 hp with hp1 | hp2
        · obtain ⟨hy, hr⟩ := hall p hp1
          exact ⟨hy, by linarith⟩
        · simp only [List.mem_singleton] at hp2
          subst hp2
          refine ⟨rfl, ?_⟩
          simp only [PlatformDefinition.x, PlatformDefinition.width]
          ring_nf
          linarith
    · -- too narrow: nothing pushed, cursor still advances
      apply ih
      have hseg : (3 : ℚ) ≤ (randomBetween 3 8 (mathRandom rs).2).1 :=
        randomBetween_fst_ge 3 8 _ (by norm_num)
      have habs : |params.levelMaxX - currentX| = params.levelMaxX - currentX :=
        abs_of_pos (by linarith)
      have hwpos : 0 < w := by
        rw [hwdef, habs]
        exact lt_min (by linarith) (by linarith)
      refine ⟨hgen, by linarith, ?_⟩
      intro p hp
      obtain ⟨hy, hr⟩ := hall p hp
      exact ⟨hy, by linarith⟩
    · exact hgen

theorem firstRowLoop_inv (params : LevelGenerationParams) (firstRowY : ℚ) (count : ℤ) :
    ∀ (fuel : ℕ) (x : ℚ) (placed : ℤ) (ps : List PlatformDefinition) (rs : RS),
      GenInv params ps →
      GenInv params (firstRowLoop params firstRowY count fuel x placed ps rs).1 := by
  intro fuel
  induction fuel with
  | zero => intro x placed ps rs hinv; exact hinv
  | succ n ih =>
    intro x placed ps rs hinv
    simp only [firstRowLoop]
    split_ifs with h1 hv
    · exact ih _ _ _ _ (genInv_push_valid params ps true _ _ _ _ hv hinv)
    · exact ih _ _ _ _ hinv
    · exact hinv

theorem bridgeLoop_inv (params : LevelGenerationParams) (firstRowY : ℚ) :
    ∀ (segs : List PlatformDefinition) (ps : List PlatformDefinition) (rs : RS),
      GenInv params ps →
      GenInv params (bridgeLoop params firstRowY segs ps rs).1 := by
  intro segs
  induction segs with
  | nil => intro ps rs hinv; exact hinv
  | cons a tail ih =>
    intro ps rs hinv
    cases tail with
    | nil => exact hinv
    | cons b rest =>
      simp only [bridgeLoop]
      split_ifs with h1 hv
      · exact ih _ _ (genInv_push_valid params ps false _ _ _ _ hv hinv)
      · exact ih _ _ hinv
      · exact ih _ _ hinv

theorem zigzagLoop_inv (params : LevelGenerationParams) (currentHeight : ℚ) :
    ∀ (left i : ℕ) (ps : List PlatformDefinition) (rs : RS),
      GenInv params ps →
      GenInv params (zigzagLoop params currentHeight i left ps rs).1 := by
  intro left
  induction left with
  | zero => intro i ps rs hinv; exact hinv
  | succ n ih =>
    intro i ps rs hinv
    simp only [zigzagLoop]
    split_ifs <;>
      first
        | exact ih _ _ _ hinv
        | (apply ih
           apply genInv_push_valid params ps false _ _ _ _ _ hinv
           assumption)

theorem standardRowLoop_inv (params : LevelGenerationParams) (currentHeight : ℚ) (target : ℤ) :
    ∀ (att : ℕ) (x : ℚ) (placed : ℤ) (ps : List PlatformDefinition) (rs : RS),
      GenInv params ps →
      GenInv params (standardRowLoop params currentHeight target att x placed ps rs).1 := by
  intro att
  induction att with
  | zero => intro x placed ps rs hinv; exact hinv
  | succ n ih =>
    intro x placed ps rs hinv
    simp only [standardRowLoop]
    split_ifs with h1 hv
    · exact ih _ _ _ _ (genInv_push_valid params ps false _ _ _ _ hv hinv)
    · exact ih _ _ _ _ hinv
    · exact hinv

theorem rowBody_inv (params : LevelGenerationParams) (firstRowY : ℚ) (row : ℕ)
    (currentHeight : ℚ) (ps : List PlatformDefinition) (rs : RS)
    (hinv : GenInv params ps) :
    GenInv params (rowBody params firstRowY row currentHeight ps rs).1 := by
  simp only [rowBody]
  split_ifs <;>
    (repeat
      first
      | exact hinv
      | apply standardRowLoop_inv
      | apply zigzagLoop_inv
      | apply bridgeLoop_inv)

theorem rowsLoop_inv (params : LevelGenerationParams) (firstRowY : ℚ) :
    ∀ (remaining row : ℕ) (currentHeight : ℚ) (ps : List PlatformDefinition) (rs : RS),
      GenInv params ps →
      GenInv params (rowsLoop params firstRowY remaining row currentHeight ps rs).1 := by
  intro remaining
  induction remaining with
  | zero => intro row ch ps rs hinv; exact hinv
  | succ n ih =>
    intro row ch ps rs hinv
    simp only [rowsLoop]
    split_ifs with h1
    · exact hinv
    · exact ih _ _ _ _ (rowBody_inv params firstRowY row _ ps _ hinv)

theorem connectorTriple_inv (params : LevelGenerationParams)
    (lowerPlatforms upperPlatforms : List PlatformDefinition) :
    ∀ (j : ℕ) (ps : List PlatformDefinition) (rs : RS),
      GenInv params ps →
      GenInv params (connectorTriple params lowerPlatforms upperPlatforms j ps rs).1 := by
  intro j
  induction j with
  | zero => intro ps rs hinv; exact hinv
  | succ n ih =>
    intro ps rs hinv
    simp only [connectorTriple]
    split
    · split_ifs with hv
      · exact ih _ _ (genInv_push_valid params ps false _ _ _ _ hv hinv)
      · exact ih _ _ hinv
    · exact ih _ _ hinv

theorem connectorLoop_inv (params : LevelGenerationParams)
    (existingPlatforms : List PlatformDefinition) :
    ∀ (rows : List ℚ) (ps : List PlatformDefinition) (rs : RS),
      GenInv params ps →
      GenInv params (connectorLoop params existingPlatforms rows ps rs).1 := by
  intro rows
  induction rows with
  | nil => intro ps rs hinv; exact hinv
  | cons a tail ih =>
    intro ps rs hinv
    cases tail with
    | nil => exact hinv
    | cons b rest =>
      simp only [connectorLoop]
      split_ifs with h1
      · exact ih _ _ hinv
      · exact ih _ _ (connectorTriple_inv params _ _ 3 ps rs hinv)

theorem generatePlatforms_genInv (fuel : ℕ) (params : LevelGenerationParams) (rs : RS) :
    GenInv params (generatePlatforms fuel params rs).1 := by
  delta generatePlatforms
  lift_lets
  extract_lets ps0 g1 g2 pf firstRowY px0 pc firstRowPlatformCount f1 heightRange
    avgRowSpacing numRows r1 existingPlatforms existingRows
  have h0 : GenInv params ps0 := by
    refine ⟨List.pairwise_singleton _ _, ⟨_, [], rfl, rfl⟩, ?_⟩
    intro i hi
    have hlen : ps0.length = 1 := rfl
    rw [hlen] at hi
    have hi0 : i = 0 := by omega
    subst hi0
    exact Or.inl rfl
  have hleft : GenInv params g1.1 ∧ ∀ p ∈ g1.1, p.y = params.groundY ∧ p.x + p.width / 2 ≤ 6 := by
    refine groundLeftLoop_inv params fuel (-8) ps0 rs ⟨h0, le_refl _, ?_⟩
    intro p hp
    have hps0 : ps0 = [({ width := 12, height := params.groundHeight, x := 0, y := params.groundY } : PlatformDefinition)] := rfl
    rw [hps0, List.mem_singleton] at hp
    subst hp
    refine ⟨rfl, ?_, ?_⟩ <;> norm_num [PlatformDefinition.x, PlatformDefinition.width]
  have hright : GenInv params g2.1 := by
    refine groundRightLoop_inv params fuel 8 g1.1 g1.2 ⟨hleft.1, le_refl _, ?_⟩
    intro p hp
    obtain ⟨hy, hr⟩ := hleft.2 p hp
    exact ⟨hy, by linarith⟩
  have hfirst : GenInv params f1.1 :=
    firstRowLoop_inv params firstRowY firstRowPlatformCount fuel
      (params.levelMinX + px0.1) 0 g2.1 pc.2 hright
  have hrows : GenInv params r1.1 :=
    rowsLoop_inv params firstRowY numRows.toNat 0 firstRowY f1.1 f1.2 hfirst
  split_ifs with h1
  · exact connectorLoop_inv params existingPlatforms existingRows r1.1 r1.2 hrows
  · exact hrows

/-! ## C2/C3 — concrete scenario data -/

/-- The C2 scenario level: 40-unit-wide parameters, seed 12345, ambient
stream constantly `1/2` (no ambient ground gaps, no zig-zag rows). -/
def c2Level : GeneratedLevel :=
  generateLevel sinZero 80 mediumParams (some 12345) (ambConst (1/2))

/-- Parameters for the C3 scenario: a wide right side with locked 6-unit
horizontal spacing and 5-unit platforms, so the first elevated row leaves
openings that only the relaxed edge-proximity test can bridge. -/
def c3Params : LevelGenerationParams :=
  { levelWidth := 74, levelMinX := -10, levelMaxX := 64
    groundY := -43/10, groundHeight := 1/2
    minPlatformWidth := 5, maxPlatformWidth := 5
    minPlatformHeight := 1/2, maxPlatformHeight := 1/2
    minY := -3, maxY := 7
    minPlatformSpacingY := 9, maxPlatformSpacingY := 9
    minPlatformSpacingX := 6, maxPlatformSpacingX := 6
    playerJumpHeight := 16/5, playerJumpDistance := 21/5
    enemyDensity := 0, minEnemiesPerPlatform := 1, maxEnemiesPerPlatform := 2
    collectibleDensity := 0, minCollectiblesPerPlatform := 1,
    maxCollectiblesPerPlatform := 3, collectibleHeight := 7/10 }

/-- Ambient stream for the C3 scenario: the draws consumed by the third and
fourth right-ground-loop iterations are `0` (forcing two consecutive seeded
gaps), every other draw is `1/2`. -/
def c3Amb : ℕ → ℚ := fun n => if n = 2 || n = 3 then 0 else 1/2

/-- The C3 scenario level (seed 69). -/
def c3Level : GeneratedLevel := generateLevel sinZero 200 c3Params (some 69) c3Amb

/-! ## C2 — buffered platform separation -/

/-- **C2 (counterexample).** The segmented-ground loops place consecutive
ground segments exactly `1.0` units apart, so two ground-tier platforms
(indices 1 and 2 of this level) have disjoint AABBs whose `1.0`-unit
buffered expansions do overlap, refuting the claim for a pair that is not
covered by the ground/floating exemption. -/
theorem c2_adjacent_ground_segments_inside_buffer :
    ∃ p, c2Level.platforms.get? 1 = some p ∧
      ∃ q, c2Level.platforms.get? 2 = some q ∧
        (groundTier p ↔ groundTier q) ∧ ¬ aabbOverlap p q ∧ bufferedOverlap p q := by
  with_unfolding_all decide

/-- **C2 (amended).** Every level returned by `generateLevel` has pairwise
non-overlapping platform AABBs without buffer expansion, for every pair of
distinct platforms that is either entirely ground-tier or entirely
floating (the pairs the claim covers): `platformOverlaps` rejects any
direct AABB intersection for such pairs, and both ground loops keep new
segments strictly beyond the previously covered extent. -/
theorem c2_platform_aabbs_pairwise_disjoint (sinpi : ℚ → ℚ) (fuel : ℕ)
    (params : LevelGenerationParams) (seedArg : Option ℕ) (amb : ℕ → ℚ) :
    List.Pairwise (fun p q => (groundTier p ↔ groundTier q) → ¬ aabbOverlap p q)
      (generateLevel sinpi fuel params seedArg amb).platforms :=
  (generatePlatforms_genInv fuel params
    (setRandomSeed seedArg { seed := 0, amb := amb, ai := 0 })).1

/-! ## C3 — reachability of non-ground platforms -/

/-- **C3 (counterexample).** The last platform of the C3 scenario level is a
bridge platform placed by the relaxed `edgesClose` disjunct of
`isPlatformLocationValid`: it is not at ground height, it is not within
`0.7 * playerJumpHeight` of the ground platform, and no other platform of
the level is within the claimed jump envelope (horizontal distance at most
`playerJumpDistance`, vertical offset in `[-2h, +h]`). -/
theorem c3_bridge_beyond_jump_envelope :
    ∃ p, c3Level.platforms.get? (c3Level.platforms.length - 1) = some p ∧
      p.y ≠ c3Params.groundY ∧
      ¬(p.y - c3Params.groundY ≤ c3Params.playerJumpHeight * (7/10)) ∧
      ∀ q ∈ c3Level.platforms.eraseIdx (c3Level.platforms.length - 1),
        ¬(|p.x - q.x| ≤ c3Params.playerJumpDistance ∧
          p.y - q.y ≤ c3Params.playerJumpHeight ∧
          p.y - q.y ≥ -c3Params.playerJumpHeight * 2) := by
  with_unfolding_all decide

/-- **C3 (amended).** Every platform of a generated level that is not at
ground height is either within `0.7 * playerJumpHeight` of the ground
platform, or is linked to another platform of the level by the disjunction
actually tested by `isPlatformLocationValid`: the jump envelope
(horizontal ≤ `playerJumpDistance`, vertical offset in `[-2h, +h]`) OR the
relaxed edge-proximity test (centre distance < half-widths plus half the
jump distance, with vertical gap < `playerJumpHeight`). -/
theorem c3_nonground_linked_or_first_row (sinpi : ℚ → ℚ) (fuel : ℕ)
    (params : LevelGenerationParams) (seedArg : Option ℕ) (amb : ℕ → ℚ) (i : ℕ)
    (hi : i < (generateLevel sinpi fuel params seedArg amb).platforms.length)
    (hng : ((generateLevel sinpi fuel params seedArg amb).platforms.get ⟨i, hi⟩).y ≠
      params.groundY) :
    ((generateLevel sinpi fuel params seedArg amb).platforms.get ⟨i, hi⟩).y -
        params.groundY ≤ params.playerJumpHeight * (7/10) ∨
      ∃ q ∈ (generateLevel sinpi fuel params seedArg amb).platforms.eraseIdx i,
        linkCond params
          ((generateLevel sinpi fuel params seedArg amb).platforms.get ⟨i, hi⟩) q := by
  have hr := (generatePlatforms_genInv fuel params
    (setRandomSeed seedArg { seed := 0, amb := amb, ai := 0 })).2.2 i hi
  rcases hr with h | h
  · exact absurd h hng
  · exact h

/-- Witness for the amended C3 theorem: platform 9 of the C3 scenario level
is non-ground, and the theorem applied there yields the margin-or-link
disjunction. -/
theorem c3_nonground_linked_or_first_row_witness :
    ∃ hlen : 9 < c3Level.platforms.length,
      (c3Level.platforms.get ⟨9, hlen⟩).y ≠ c3Params.groundY ∧
      ((c3Level.platforms.get ⟨9, hlen⟩).y - c3Params.groundY ≤
          c3Params.playerJumpHeight * (7/10) ∨
        ∃ q ∈ c3Level.platforms.eraseIdx 9,
          linkCond c3Params (c3Level.platforms.get ⟨9, hlen⟩) q) := by
  have hlen : 9 < c3Level.platforms.length := by with_unfolding_all decide
  have hng0 : (c3Level.platforms.get
      ⟨9, by with_unfolding_all decide⟩).y ≠ c3Params.groundY := by
    with_unfolding_all decide
  have hng : (c3Level.platforms.get ⟨9, hlen⟩).y ≠ c3Params.groundY := hng0
  exact ⟨hlen, hng,
    c3_nonground_linked_or_first_row sinZero 200 c3Params (some 69) c3Amb 9 hlen hng⟩
